import Mathlib

/-! # DeviceService: the generated gRPC glue and the device core behind it

Part 1 (namespace `Api`) embeds `api/go/api/device_grpc.pb.go`: the client stub
`deviceServiceClient`, the default server `UnimplementedDeviceServiceServer`, the nineteen
`_DeviceService_*_Handler` functions and the descriptor `DeviceService_ServiceDesc`.

Go code with side effects is embedded by explicit state passing over a record `Run W`:
`world : W` is the state of everything outside this file (the connection, the decoder, the
server implementation) and `calls` is the trace of the calls this file makes on those
collaborators, in order.  Collaborators are functions on `W`; they cannot touch the trace.
-/

namespace Api

/-! ## Go values -/

/-- A `context.Context` value (identified by a number). -/
abbrev Context := Nat

/-- A `grpc.CallOption` value. -/
abbrev CallOption := Nat

/-- The gRPC status codes of `google.golang.org/grpc/codes`. -/
inductive Code
  | OK | Canceled | Unknown | InvalidArgument | DeadlineExceeded | NotFound | AlreadyExists
  | PermissionDenied | ResourceExhausted | FailedPrecondition | Aborted | OutOfRange
  | Unimplemented | Internal | Unavailable | DataLoss | Unauthenticated
  deriving DecidableEq, Repr

/-- A non-nil Go `error`: a gRPC status error (code and message) or any other error.
The nil error is `none : Option Error`. -/
inductive Error
  | status (code : Code) (message : String)
  | other (text : String)
  deriving DecidableEq, Repr

/-- The call `status.Errorf(c, format)` for a format without verbs: the message is the
format itself, and the result is nil exactly when the code is `OK`. -/
def status.Errorf (c : Code) (format : String) : Option Error :=
  if c = Code.OK then none else some (Error.status c format)

/-- The protobuf message types that occur in the signatures of the service. -/
inductive MsgType
  | Empty
  | CreateDeviceRequest | GetDeviceRequest | GetDeviceResponse | UpdateDeviceRequest
  | DeleteDeviceRequest | ListDevicesRequest | ListDevicesResponse
  | CreateDeviceKeysRequest | GetDeviceKeysRequest | GetDeviceKeysResponse
  | UpdateDeviceKeysRequest | DeleteDeviceKeysRequest | FlushDevNoncesRequest
  | ActivateDeviceRequest | DeactivateDeviceRequest
  | GetDeviceActivationRequest | GetDeviceActivationResponse
  | GetRandomDevAddrRequest | GetRandomDevAddrResponse
  | GetDeviceMetricsRequest | GetDeviceMetricsResponse
  | GetDeviceLinkMetricsRequest | GetDeviceLinkMetricsResponse
  | EnqueueDeviceQueueItemRequest | EnqueueDeviceQueueItemResponse
  | FlushDeviceQueueRequest | GetDeviceQueueItemsRequest | GetDeviceQueueItemsResponse
  deriving DecidableEq, Repr

/-- The contents of a message (its field values, kept abstract). -/
abbrev Body := List Nat

/-- A statically typed message pointer `*T`: nil (`none`) or a pointer to a message. -/
abbrev Ptr := Option Body

/-- An `interface{}` value that holds a message pointer: its dynamic type and the pointer.
The nil interface is `none : Option Any`. -/
structure Any where
  ty : MsgType
  ptr : Ptr
  deriving DecidableEq, Repr

/-- The expression `new(T)`: a pointer to the zero message of type `T`. -/
def new (_ : MsgType) : Ptr := some []

/-- One call made on a collaborator, as recorded in the trace. -/
inductive Call
  | invoke (method : String) (args reply : Any) (opts : List CallOption)
  | decode (target : Any)
  | serve (method : String) (ctx : Context) (req : Ptr)
  | intercept (fullMethod : String) (ctx : Context) (req : Any)
  deriving DecidableEq, Repr

/-- The state threaded through the embedded code. -/
structure Run (W : Type) where
  world : W
  calls : List Call

/-! ## Client -/

/-- The interface `grpc.ClientConnInterface`, reduced to `Invoke`.  `Invoke` reads `args`,
may write the message `reply` points to (the returned `Body` is its contents afterwards) and
returns an error or nil. -/
structure ClientConnInterface (W : Type) where
  Invoke : Context → String → Any → Any → List CallOption → W → (Option Error × Body) × W

/-- The call site `c.cc.Invoke(ctx, method, in, out, opts...)`: the call is recorded and run
on the world. -/
def ClientConnInterface.invoke {W : Type} (cc : ClientConnInterface W) (ctx : Context)
    (method : String) (args reply : Any) (opts : List CallOption) (r : Run W) :
    (Option Error × Body) × Run W :=
  let res := cc.Invoke ctx method args reply opts r.world
  (res.1, { world := res.2, calls := r.calls ++ [Call.invoke method args reply opts] })

/-- The struct `deviceServiceClient`. -/
structure deviceServiceClient (W : Type) where
  cc : ClientConnInterface W

/-- The constructor `NewDeviceServiceClient`. -/
def NewDeviceServiceClient {W : Type} (cc : ClientConnInterface W) : deviceServiceClient W :=
  { cc := cc }

/-- What a client method returns: the response pointer and the error. -/
abbrev ClientResult := Ptr × Option Error

/-- The variadic parameter `opts ...grpc.CallOption`. -/
abbrev CallOptions := List CallOption

variable {W : Type}

def deviceServiceClient.Create (c : deviceServiceClient W) (ctx : Context) (req : Ptr)
    (opts : CallOptions) (r : Run W) : ClientResult × Run W :=
  let out := new MsgType.Empty
  let res := c.cc.invoke ctx "/api.DeviceService/Create"
    { ty := MsgType.CreateDeviceRequest, ptr := req }
    { ty := MsgType.Empty, ptr := out } opts r
  match res.1.1 with
  | some err => ((none, some err), res.2)
  | none => ((some res.1.2, none), res.2)

def deviceServiceClient.Get (c : deviceServiceClient W) (ctx : Context) (req : Ptr)
    (opts : CallOptions) (r : Run W) : ClientResult × Run W :=
  let out := new MsgType.GetDeviceResponse
  let res := c.cc.invoke ctx "/api.DeviceService/Get"
    { ty := MsgType.GetDeviceRequest, ptr := req }
    { ty := MsgType.GetDeviceResponse, ptr := out } opts r
  match res.1.1 with
  | some err => ((none, some err), res.2)
  | none => ((some res.1.2, none), res.2)

def deviceServiceClient.Update (c : deviceServiceClient W) (ctx : Context) (req : Ptr)
    (opts : CallOptions) (r : Run W) : ClientResult × Run W :=
  let out := new MsgType.Empty
  let res := c.cc.invoke ctx "/api.DeviceService/Update"
    { ty := MsgType.UpdateDeviceRequest, ptr := req }
    { ty := MsgType.Empty, ptr := out } opts r
  match res.1.1 with
  | some err => ((none, some err), res.2)
  | none => ((some res.1.2, none), res.2)

def deviceServiceClient.Delete (c : deviceServiceClient W) (ctx : Context) (req : Ptr)
    (opts : CallOptions) (r : Run W) : ClientResult × Run W :=
  let out := new MsgType.Empty
  let res := c.cc.invoke ctx "/api.DeviceService/Delete"
    { ty := MsgType.DeleteDeviceRequest, ptr := req }
    { ty := MsgType.Empty, ptr := out } opts r
  match res.1.1 with
  | some err => ((none, some err), res.2)
  | none => ((some res.1.2, none), res.2)

def deviceServiceClient.List (c : deviceServiceClient W) (ctx : Context) (req : Ptr)
    (opts : CallOptions) (r : Run W) : ClientResult × Run W :=
  let out := new MsgType.ListDevicesResponse
  let res := c.cc.invoke ctx "/api.DeviceService/List"
    { ty := MsgType.ListDevicesRequest, ptr := req }
    { ty := MsgType.ListDevicesResponse, ptr := out } opts r
  match res.1.1 with
  | some err => ((none, some err), res.2)
  | none => ((some res.1.2, none), res.2)

def deviceServiceClient.CreateKeys (c : deviceServiceClient W) (ctx : Context) (req : Ptr)
    (opts : CallOptions) (r : Run W) : ClientResult × Run W :=
  let out := new MsgType.Empty
  let res := c.cc.invoke ctx "/api.DeviceService/CreateKeys"
    { ty := MsgType.CreateDeviceKeysRequest, ptr := req }
    { ty := MsgType.Empty, ptr := out } opts r
  match res.1.1 with
  | some err => ((none, some err), res.2)
  | none => ((some res.1.2, none), res.2)

def deviceServiceClient.GetKeys (c : deviceServiceClient W) (ctx : Context) (req : Ptr)
    (opts : CallOptions) (r : Run W) : ClientResult × Run W :=
  let out := new MsgType.GetDeviceKeysResponse
  let res := c.cc.invoke ctx "/api.DeviceService/GetKeys"
    { ty := MsgType.GetDeviceKeysRequest, ptr := req }
    { ty := MsgType.GetDeviceKeysResponse, ptr := out } opts r
  match res.1.1 with
  | some err => ((none, some err), res.2)
  | none => ((some res.1.2, none), res.2)

def deviceServiceClient.UpdateKeys (c : deviceServiceClient W) (ctx : Context) (req : Ptr)
    (opts : CallOptions) (r : Run W) : ClientResult × Run W :=
  let out := new MsgType.Empty
  let res := c.cc.invoke ctx "/api.DeviceService/UpdateKeys"
    { ty := MsgType.UpdateDeviceKeysRequest, ptr := req }
    { ty := MsgType.Empty, ptr := out } opts r
  match res.1.1 with
  | some err => ((none, some err), res.2)
  | none => ((some res.1.2, none), res.2)

def deviceServiceClient.DeleteKeys (c : deviceServiceClient W) (ctx : Context) (req : Ptr)
    (opts : CallOptions) (r : Run W) : ClientResult × Run W :=
  let out := new MsgType.Empty
  let res := c.cc.invoke ctx "/api.DeviceService/DeleteKeys"
    { ty := MsgType.DeleteDeviceKeysRequest, ptr := req }
    { ty := MsgType.Empty, ptr := out } opts r
  match res.1.1 with
  | some err => ((none, some err), res.2)
  | none => ((some res.1.2, none), res.2)

def deviceServiceClient.FlushDevNonces (c : deviceServiceClient W) (ctx : Context) (req : Ptr)
    (opts : CallOptions) (r : Run W) : ClientResult × Run W :=
  let out := new MsgType.Empty
  let res := c.cc.invoke ctx "/api.DeviceService/FlushDevNonces"
    { ty := MsgType.FlushDevNoncesRequest, ptr := req }
    { ty := MsgType.Empty, ptr := out } opts r
  match res.1.1 with
  | some err => ((none, some err), res.2)
  | none => ((some res.1.2, none), res.2)

def deviceServiceClient.Activate (c : deviceServiceClient W) (ctx : Context) (req : Ptr)
    (opts : CallOptions) (r : Run W) : ClientResult × Run W :=
  let out := new MsgType.Empty
  let res := c.cc.invoke ctx "/api.DeviceService/Activate"
    { ty := MsgType.ActivateDeviceRequest, ptr := req }
    { ty := MsgType.Empty, ptr := out } opts r
  match res.1.1 with
  | some err => ((none, some err), res.2)
  | none => ((some res.1.2, none), res.2)

def deviceServiceClient.Deactivate (c : deviceServiceClient W) (ctx : Context) (req : Ptr)
    (opts : CallOptions) (r : Run W) : ClientResult × Run W :=
  let out := new MsgType.Empty
  let res := c.cc.invoke ctx "/api.DeviceService/Deactivate"
    { ty := MsgType.DeactivateDeviceRequest, ptr := req }
    { ty := MsgType.Empty, ptr := out } opts r
  match res.1.1 with
  | some err => ((none, some err), res.2)
  | none => ((some res.1.2, none), res.2)

def deviceServiceClient.GetActivation (c : deviceServiceClient W) (ctx : Context) (req : Ptr)
    (opts : CallOptions) (r : Run W) : ClientResult × Run W :=
  let out := new MsgType.GetDeviceActivationResponse
  let res := c.cc.invoke ctx "/api.DeviceService/GetActivation"
    { ty := MsgType.GetDeviceActivationRequest, ptr := req }
    { ty := MsgType.GetDeviceActivationResponse, ptr := out } opts r
  match res.1.1 with
  | some err => ((none, some err), res.2)
  | none => ((some res.1.2, none), res.2)

def deviceServiceClient.GetRandomDevAddr (c : deviceServiceClient W) (ctx : Context) (req : Ptr)
    (opts : CallOptions) (r : Run W) : ClientResult × Run W :=
  let out := new MsgType.GetRandomDevAddrResponse
  let res := c.cc.invoke ctx "/api.DeviceService/GetRandomDevAddr"
    { ty := MsgType.GetRandomDevAddrRequest, ptr := req }
    { ty := MsgType.GetRandomDevAddrResponse, ptr := out } opts r
  match res.1.1 with
  | some err => ((none, some err), res.2)
  | none => ((some res.1.2, none), res.2)

def deviceServiceClient.GetMetrics (c : deviceServiceClient W) (ctx : Context) (req : Ptr)
    (opts : CallOptions) (r : Run W) : ClientResult × Run W :=
  let out := new MsgType.GetDeviceMetricsResponse
  let res := c.cc.invoke ctx "/api.DeviceService/GetMetrics"
    { ty := MsgType.GetDeviceMetricsRequest, ptr := req }
    { ty := MsgType.GetDeviceMetricsResponse, ptr := out } opts r
  match res.1.1 with
  | some err => ((none, some err), res.2)
  | none => ((some res.1.2, none), res.2)

def deviceServiceClient.GetLinkMetrics (c : deviceServiceClient W) (ctx : Context) (req : Ptr)
    (opts : CallOptions) (r : Run W) : ClientResult × Run W :=
  let out := new MsgType.GetDeviceLinkMetricsResponse
  let res := c.cc.invoke ctx "/api.DeviceService/GetLinkMetrics"
    { ty := MsgType.GetDeviceLinkMetricsRequest, ptr := req }
    { ty := MsgType.GetDeviceLinkMetricsResponse, ptr := out } opts r
  match res.1.1 with
  | some err => ((none, some err), res.2)
  | none => ((some res.1.2, none), res.2)

def deviceServiceClient.Enqueue (c : deviceServiceClient W) (ctx : Context) (req : Ptr)
    (opts : CallOptions) (r : Run W) : ClientResult × Run W :=
  let out := new MsgType.EnqueueDeviceQueueItemResponse
  let res := c.cc.invoke ctx "/api.DeviceService/Enqueue"
    { ty := MsgType.EnqueueDeviceQueueItemRequest, ptr := req }
    { ty := MsgType.EnqueueDeviceQueueItemResponse, ptr := out } opts r
  match res.1.1 with
  | some err => ((none, some err), res.2)
  | none => ((some res.1.2, none), res.2)

def deviceServiceClient.FlushQueue (c : deviceServiceClient W) (ctx : Context) (req : Ptr)
    (opts : CallOptions) (r : Run W) : ClientResult × Run W :=
  let out := new MsgType.Empty
  let res := c.cc.invoke ctx "/api.DeviceService/FlushQueue"
    { ty := MsgType.FlushDeviceQueueRequest, ptr := req }
    { ty := MsgType.Empty, ptr := out } opts r
  match res.1.1 with
  | some err => ((none, some err), res.2)
  | none => ((some res.1.2, none), res.2)

def deviceServiceClient.GetQueue (c : deviceServiceClient W) (ctx : Context) (req : Ptr)
    (opts : CallOptions) (r : Run W) : ClientResult × Run W :=
  let out := new MsgType.GetDeviceQueueItemsResponse
  let res := c.cc.invoke ctx "/api.DeviceService/GetQueue"
    { ty := MsgType.GetDeviceQueueItemsRequest, ptr := req }
    { ty := MsgType.GetDeviceQueueItemsResponse, ptr := out } opts r
  match res.1.1 with
  | some err => ((none, some err), res.2)
  | none => ((some res.1.2, none), res.2)

/-! ## Server -/

/-- The interface `DeviceServiceServer`: one field per method.  A method reads and writes the
world and returns a response pointer and an error. -/
structure DeviceServiceServer (W : Type) where
  Create : Context → Ptr → W → (Ptr × Option Error) × W
  Get : Context → Ptr → W → (Ptr × Option Error) × W
  Update : Context → Ptr → W → (Ptr × Option Error) × W
  Delete : Context → Ptr → W → (Ptr × Option Error) × W
  List : Context → Ptr → W → (Ptr × Option Error) × W
  CreateKeys : Context → Ptr → W → (Ptr × Option Error) × W
  GetKeys : Context → Ptr → W → (Ptr × Option Error) × W
  UpdateKeys : Context → Ptr → W → (Ptr × Option Error) × W
  DeleteKeys : Context → Ptr → W → (Ptr × Option Error) × W
  FlushDevNonces : Context → Ptr → W → (Ptr × Option Error) × W
  Activate : Context → Ptr → W → (Ptr × Option Error) × W
  Deactivate : Context → Ptr → W → (Ptr × Option Error) × W
  GetActivation : Context → Ptr → W → (Ptr × Option Error) × W
  GetRandomDevAddr : Context → Ptr → W → (Ptr × Option Error) × W
  GetMetrics : Context → Ptr → W → (Ptr × Option Error) × W
  GetLinkMetrics : Context → Ptr → W → (Ptr × Option Error) × W
  Enqueue : Context → Ptr → W → (Ptr × Option Error) × W
  FlushQueue : Context → Ptr → W → (Ptr × Option Error) × W
  GetQueue : Context → Ptr → W → (Ptr × Option Error) × W

def UnimplementedDeviceServiceServer.Create (_ : Context) (_ : Ptr) (w : W) :
    (Ptr × Option Error) × W :=
  ((none, status.Errorf Code.Unimplemented "method Create not implemented"), w)

def UnimplementedDeviceServiceServer.Get (_ : Context) (_ : Ptr) (w : W) :
    (Ptr × Option Error) × W :=
  ((none, status.Errorf Code.Unimplemented "method Get not implemented"), w)

def UnimplementedDeviceServiceServer.Update (_ : Context) (_ : Ptr) (w : W) :
    (Ptr × Option Error) × W :=
  ((none, status.Errorf Code.Unimplemented "method Update not implemented"), w)

def UnimplementedDeviceServiceServer.Delete (_ : Context) (_ : Ptr) (w : W) :
    (Ptr × Option Error) × W :=
  ((none, status.Errorf Code.Unimplemented "method Delete not implemented"), w)

def UnimplementedDeviceServiceServer.List (_ : Context) (_ : Ptr) (w : W) :
    (Ptr × Option Error) × W :=
  ((none, status.Errorf Code.Unimplemented "method List not implemented"), w)

def UnimplementedDeviceServiceServer.CreateKeys (_ : Context) (_ : Ptr) (w : W) :
    (Ptr × Option Error) × W :=
  ((none, status.Errorf Code.Unimplemented "method CreateKeys not implemented"), w)

def UnimplementedDeviceServiceServer.GetKeys (_ : Context) (_ : Ptr) (w : W) :
    (Ptr × Option Error) × W :=
  ((none, status.Errorf Code.Unimplemented "method GetKeys not implemented"), w)

def UnimplementedDeviceServiceServer.UpdateKeys (_ : Context) (_ : Ptr) (w : W) :
    (Ptr × Option Error) × W :=
  ((none, status.Errorf Code.Unimplemented "method UpdateKeys not implemented"), w)

def UnimplementedDeviceServiceServer.DeleteKeys (_ : Context) (_ : Ptr) (w : W) :
    (Ptr × Option Error) × W :=
  ((none, status.Errorf Code.Unimplemented "method DeleteKeys not implemented"), w)

def UnimplementedDeviceServiceServer.FlushDevNonces (_ : Context) (_ : Ptr) (w : W) :
    (Ptr × Option Error) × W :=
  ((none, status.Errorf Code.Unimplemented "method FlushDevNonces not implemented"), w)

def UnimplementedDeviceServiceServer.Activate (_ : Context) (_ : Ptr) (w : W) :
    (Ptr × Option Error) × W :=
  ((none, status.Errorf Code.Unimplemented "method Activate not implemented"), w)

def UnimplementedDeviceServiceServer.Deactivate (_ : Context) (_ : Ptr) (w : W) :
    (Ptr × Option Error) × W :=
  ((none, status.Errorf Code.Unimplemented "method Deactivate not implemented"), w)

def UnimplementedDeviceServiceServer.GetActivation (_ : Context) (_ : Ptr) (w : W) :
    (Ptr × Option Error) × W :=
  ((none, status.Errorf Code.Unimplemented "method GetActivation not implemented"), w)

def UnimplementedDeviceServiceServer.GetRandomDevAddr (_ : Context) (_ : Ptr) (w : W) :
    (Ptr × Option Error) × W :=
  ((none, status.Errorf Code.Unimplemented "method GetRandomDevAddr not implemented"), w)

def UnimplementedDeviceServiceServer.GetMetrics (_ : Context) (_ : Ptr) (w : W) :
    (Ptr × Option Error) × W :=
  ((none, status.Errorf Code.Unimplemented "method GetMetrics not implemented"), w)

def UnimplementedDeviceServiceServer.GetLinkMetrics (_ : Context) (_ : Ptr) (w : W) :
    (Ptr × Option Error) × W :=
  ((none, status.Errorf Code.Unimplemented "method GetLinkMetrics not implemented"), w)

def UnimplementedDeviceServiceServer.Enqueue (_ : Context) (_ : Ptr) (w : W) :
    (Ptr × Option Error) × W :=
  ((none, status.Errorf Code.Unimplemented "method Enqueue not implemented"), w)

def UnimplementedDeviceServiceServer.FlushQueue (_ : Context) (_ : Ptr) (w : W) :
    (Ptr × Option Error) × W :=
  ((none, status.Errorf Code.Unimplemented "method FlushQueue not implemented"), w)

def UnimplementedDeviceServiceServer.GetQueue (_ : Context) (_ : Ptr) (w : W) :
    (Ptr × Option Error) × W :=
  ((none, status.Errorf Code.Unimplemented "method GetQueue not implemented"), w)

/-- The struct `UnimplementedDeviceServiceServer` as a `DeviceServiceServer`: its method set. -/
def UnimplementedDeviceServiceServer (W : Type) : DeviceServiceServer W where
  Create := UnimplementedDeviceServiceServer.Create
  Get := UnimplementedDeviceServiceServer.Get
  Update := UnimplementedDeviceServiceServer.Update
  Delete := UnimplementedDeviceServiceServer.Delete
  List := UnimplementedDeviceServiceServer.List
  CreateKeys := UnimplementedDeviceServiceServer.CreateKeys
  GetKeys := UnimplementedDeviceServiceServer.GetKeys
  UpdateKeys := UnimplementedDeviceServiceServer.UpdateKeys
  DeleteKeys := UnimplementedDeviceServiceServer.DeleteKeys
  FlushDevNonces := UnimplementedDeviceServiceServer.FlushDevNonces
  Activate := UnimplementedDeviceServiceServer.Activate
  Deactivate := UnimplementedDeviceServiceServer.Deactivate
  GetActivation := UnimplementedDeviceServiceServer.GetActivation
  GetRandomDevAddr := UnimplementedDeviceServiceServer.GetRandomDevAddr
  GetMetrics := UnimplementedDeviceServiceServer.GetMetrics
  GetLinkMetrics := UnimplementedDeviceServiceServer.GetLinkMetrics
  Enqueue := UnimplementedDeviceServiceServer.Enqueue
  FlushQueue := UnimplementedDeviceServiceServer.FlushQueue
  GetQueue := UnimplementedDeviceServiceServer.GetQueue

/-- The parameter `srv interface{}` of a handler: a value that implements
`DeviceServiceServer`, or some other value (on which `srv.(DeviceServiceServer)` panics). -/
inductive ServerValue (W : Type) : Type
  | impl (s : DeviceServiceServer W)
  | foreign (tag : Nat)

/-- What a handler call yields: the pair `(interface{}, error)` it returns, or a panic from
a failed type assertion. -/
inductive HResult
  | ret (resp : Option Any) (err : Option Error)
  | panic
  deriving DecidableEq, Repr

/-- The parameter `dec func(interface{}) error`: it may write the message its argument points
to (the returned `Body` is the contents afterwards) and returns an error or nil. -/
abbrev Decoder (W : Type) := Any → W → (Option Error × Body) × W

/-- The call site `dec(in)`: the call is recorded and run on the world. -/
def decode (dec : Decoder W) (target : Any) (r : Run W) : (Option Error × Body) × Run W :=
  let res := dec target r.world
  (res.1, { world := res.2, calls := r.calls ++ [Call.decode target] })

/-- The call site `srv.(DeviceServiceServer).M(ctx, req)`: the type assertion panics on a
value that is no `DeviceServiceServer`; otherwise the call of method `M` (named `name`,
selected by `method`) is recorded and run on the world, and its typed response pointer is
returned as an `interface{}` of dynamic type `respTy`. -/
def ServerValue.serve (srv : ServerValue W) (name : String) (respTy : MsgType)
    (method : DeviceServiceServer W → Context → Ptr → W → (Ptr × Option Error) × W)
    (ctx : Context) (req : Ptr) (r : Run W) : HResult × Run W :=
  match srv with
  | ServerValue.foreign _ => (HResult.panic, r)
  | ServerValue.impl s =>
    let res := method s ctx req r.world
    (HResult.ret (some { ty := respTy, ptr := res.1.1 }) res.1.2,
      { world := res.2, calls := r.calls ++ [Call.serve name ctx req] })

/-- The type `grpc.UnaryHandler`: the continuation a handler hands to the interceptor. -/
abbrev UnaryHandler (W : Type) := Context → Option Any → Run W → HResult × Run W

/-- The struct `grpc.UnaryServerInfo`. -/
structure UnaryServerInfo (W : Type) where
  Server : ServerValue W
  FullMethod : String

/-- The behaviour of an interceptor from the moment it is called: it either returns a result,
leaving the world `w`, or calls the continuation it was handed with `(ctx, req)` in world `w`
and goes on from the continuation's result and the world that call leaves.  Every
deterministic, terminating interceptor whose only access to the handler is calling it is such
a tree. -/
inductive Strategy (W : Type) : Type
  | ret (res : HResult) (w : W)
  | call (ctx : Context) (req : Option Any) (w : W) (k : HResult → W → Strategy W)

/-- The type `grpc.UnaryServerInterceptor`: from the context, the request, the info and the
world at the call, the interceptor's behaviour. -/
abbrev UnaryServerInterceptor (W : Type) := Context → Any → UnaryServerInfo W → W → Strategy W

/-- Runs an interceptor's behaviour against the continuation `handler`, threading the trace. -/
def Strategy.run (handler : UnaryHandler W) : Strategy W → List Call → HResult × Run W
  | Strategy.ret res w, calls => (res, { world := w, calls := calls })
  | Strategy.call ctx req w k, calls =>
    let h := handler ctx req { world := w, calls := calls }
    Strategy.run handler (k h.1 h.2.world) h.2.calls

/-- The call site `interceptor(ctx, in, info, handler)`: the call is recorded and run. -/
def intercept (icp : UnaryServerInterceptor W) (ctx : Context) (req : Any)
    (info : UnaryServerInfo W) (handler : UnaryHandler W) (r : Run W) : HResult × Run W :=
  Strategy.run handler (icp ctx req info r.world)
    (r.calls ++ [Call.intercept info.FullMethod ctx req])

def DeviceService_Create_Handler (srv : ServerValue W) (ctx : Context) (dec : Decoder W)
    (interceptor : Option (UnaryServerInterceptor W)) (r : Run W) : HResult × Run W :=
  let d := decode dec { ty := MsgType.CreateDeviceRequest, ptr := new MsgType.CreateDeviceRequest } r
  match d.1.1 with
  | some err => (HResult.ret none (some err), d.2)
  | none =>
    let req : Any := { ty := MsgType.CreateDeviceRequest, ptr := some d.1.2 }
    match interceptor with
    | none => srv.serve "Create" MsgType.Empty DeviceServiceServer.Create ctx req.ptr d.2
    | some icp =>
      let info : UnaryServerInfo W := { Server := srv, FullMethod := "/api.DeviceService/Create" }
      let handler : UnaryHandler W := fun ctx1 req1 =>
        match req1 with
        | some a =>
          if a.ty = MsgType.CreateDeviceRequest then
            srv.serve "Create" MsgType.Empty DeviceServiceServer.Create ctx1 a.ptr
          else fun r1 => (HResult.panic, r1)
        | none => fun r1 => (HResult.panic, r1)
      intercept icp ctx req info handler d.2

def DeviceService_Get_Handler (srv : ServerValue W) (ctx : Context) (dec : Decoder W)
    (interceptor : Option (UnaryServerInterceptor W)) (r : Run W) : HResult × Run W :=
  let d := decode dec { ty := MsgType.GetDeviceRequest, ptr := new MsgType.GetDeviceRequest } r
  match d.1.1 with
  | some err => (HResult.ret none (some err), d.2)
  | none =>
    let req : Any := { ty := MsgType.GetDeviceRequest, ptr := some d.1.2 }
    match interceptor with
    | none => srv.serve "Get" MsgType.GetDeviceResponse DeviceServiceServer.Get ctx req.ptr d.2
    | some icp =>
      let info : UnaryServerInfo W := { Server := srv, FullMethod := "/api.DeviceService/Get" }
      let handler : UnaryHandler W := fun ctx1 req1 =>
        match req1 with
        | some a =>
          if a.ty = MsgType.GetDeviceRequest then
            srv.serve "Get" MsgType.GetDeviceResponse DeviceServiceServer.Get ctx1 a.ptr
          else fun r1 => (HResult.panic, r1)
        | none => fun r1 => (HResult.panic, r1)
      intercept icp ctx req info handler d.2

def DeviceService_Update_Handler (srv : ServerValue W) (ctx : Context) (dec : Decoder W)
    (interceptor : Option (UnaryServerInterceptor W)) (r : Run W) : HResult × Run W :=
  let d := decode dec { ty := MsgType.UpdateDeviceRequest, ptr := new MsgType.UpdateDeviceRequest } r
  match d.1.1 with
  | some err => (HResult.ret none (some err), d.2)
  | none =>
    let req : Any := { ty := MsgType.UpdateDeviceRequest, ptr := some d.1.2 }
    match interceptor with
    | none => srv.serve "Update" MsgType.Empty DeviceServiceServer.Update ctx req.ptr d.2
    | some icp =>
      let info : UnaryServerInfo W := { Server := srv, FullMethod := "/api.DeviceService/Update" }
      let handler : UnaryHandler W := fun ctx1 req1 =>
        match req1 with
        | some a =>
          if a.ty = MsgType.UpdateDeviceRequest then
            srv.serve "Update" MsgType.Empty DeviceServiceServer.Update ctx1 a.ptr
          else fun r1 => (HResult.panic, r1)
        | none => fun r1 => (HResult.panic, r1)
      intercept icp ctx req info handler d.2

def DeviceService_Delete_Handler (srv : ServerValue W) (ctx : Context) (dec : Decoder W)
    (interceptor : Option (UnaryServerInterceptor W)) (r : Run W) : HResult × Run W :=
  let d := decode dec { ty := MsgType.DeleteDeviceRequest, ptr := new MsgType.DeleteDeviceRequest } r
  match d.1.1 with
  | some err => (HResult.ret none (some err), d.2)
  | none =>
    let req : Any := { ty := MsgType.DeleteDeviceRequest, ptr := some d.1.2 }
    match interceptor with
    | none => srv.serve "Delete" MsgType.Empty DeviceServiceServer.Delete ctx req.ptr d.2
    | some icp =>
      let info : UnaryServerInfo W := { Server := srv, FullMethod := "/api.DeviceService/Delete" }
      let handler : UnaryHandler W := fun ctx1 req1 =>
        match req1 with
        | some a =>
          if a.ty = MsgType.DeleteDeviceRequest then
            srv.serve "Delete" MsgType.Empty DeviceServiceServer.Delete ctx1 a.ptr
          else fun r1 => (HResult.panic, r1)
        | none => fun r1 => (HResult.panic, r1)
      intercept icp ctx req info handler d.2

def DeviceService_List_Handler (srv : ServerValue W) (ctx : Context) (dec : Decoder W)
    (interceptor : Option (UnaryServerInterceptor W)) (r : Run W) : HResult × Run W :=
  let d := decode dec { ty := MsgType.ListDevicesRequest, ptr := new MsgType.ListDevicesRequest } r
  match d.1.1 with
  | some err => (HResult.ret none (some err), d.2)
  | none =>
    let req : Any := { ty := MsgType.ListDevicesRequest, ptr := some d.1.2 }
    match interceptor with
    | none => srv.serve "List" MsgType.ListDevicesResponse DeviceServiceServer.List ctx req.ptr d.2
    | some icp =>
      let info : UnaryServerInfo W := { Server := srv, FullMethod := "/api.DeviceService/List" }
      let handler : UnaryHandler W := fun ctx1 req1 =>
        match req1 with
        | some a =>
          if a.ty = MsgType.ListDevicesRequest then
            srv.serve "List" MsgType.ListDevicesResponse DeviceServiceServer.List ctx1 a.ptr
          else fun r1 => (HResult.panic, r1)
        | none => fun r1 => (HResult.panic, r1)
      intercept icp ctx req info handler d.2

def DeviceService_CreateKeys_Handler (srv : ServerValue W) (ctx : Context) (dec : Decoder W)
    (interceptor : Option (UnaryServerInterceptor W)) (r : Run W) : HResult × Run W :=
  let d := decode dec { ty := MsgType.CreateDeviceKeysRequest, ptr := new MsgType.CreateDeviceKeysRequest } r
  match d.1.1 with
  | some err => (HResult.ret none (some err), d.2)
  | none =>
    let req : Any := { ty := MsgType.CreateDeviceKeysRequest, ptr := some d.1.2 }
    match interceptor with
    | none => srv.serve "CreateKeys" MsgType.Empty DeviceServiceServer.CreateKeys ctx req.ptr d.2
    | some icp =>
      let info : UnaryServerInfo W := { Server := srv, FullMethod := "/api.DeviceService/CreateKeys" }
      let handler : UnaryHandler W := fun ctx1 req1 =>
        match req1 with
        | some a =>
          if a.ty = MsgType.CreateDeviceKeysRequest then
            srv.serve "CreateKeys" MsgType.Empty DeviceServiceServer.CreateKeys ctx1 a.ptr
          else fun r1 => (HResult.panic, r1)
        | none => fun r1 => (HResult.panic, r1)
      intercept icp ctx req info handler d.2

def DeviceService_GetKeys_Handler (srv : ServerValue W) (ctx : Context) (dec : Decoder W)
    (interceptor : Option (UnaryServerInterceptor W)) (r : Run W) : HResult × Run W :=
  let d := decode dec { ty := MsgType.GetDeviceKeysRequest, ptr := new MsgType.GetDeviceKeysRequest } r
  match d.1.1 with
  | some err => (HResult.ret none (some err), d.2)
  | none =>
    let req : Any := { ty := MsgType.GetDeviceKeysRequest, ptr := some d.1.2 }
    match interceptor with
    | none => srv.serve "GetKeys" MsgType.GetDeviceKeysResponse DeviceServiceServer.GetKeys ctx req.ptr d.2
    | some icp =>
      let info : UnaryServerInfo W := { Server := srv, FullMethod := "/api.DeviceService/GetKeys" }
      let handler : UnaryHandler W := fun ctx1 req1 =>
        match req1 with
        | some a =>
          if a.ty = MsgType.GetDeviceKeysRequest then
            srv.serve "GetKeys" MsgType.GetDeviceKeysResponse DeviceServiceServer.GetKeys ctx1 a.ptr
          else fun r1 => (HResult.panic, r1)
        | none => fun r1 => (HResult.panic, r1)
      intercept icp ctx req info handler d.2

def DeviceService_UpdateKeys_Handler (srv : ServerValue W) (ctx : Context) (dec : Decoder W)
    (interceptor : Option (UnaryServerInterceptor W)) (r : Run W) : HResult × Run W :=
  let d := decode dec { ty := MsgType.UpdateDeviceKeysRequest, ptr := new MsgType.UpdateDeviceKeysRequest } r
  match d.1.1 with
  | some err => (HResult.ret none (some err), d.2)
  | none =>
    let req : Any := { ty := MsgType.UpdateDeviceKeysRequest, ptr := some d.1.2 }
    match interceptor with
    | none => srv.serve "UpdateKeys" MsgType.Empty DeviceServiceServer.UpdateKeys ctx req.ptr d.2
    | some icp =>
      let info : UnaryServerInfo W := { Server := srv, FullMethod := "/api.DeviceService/UpdateKeys" }
      let handler : UnaryHandler W := fun ctx1 req1 =>
        match req1 with
        | some a =>
          if a.ty = MsgType.UpdateDeviceKeysRequest then
            srv.serve "UpdateKeys" MsgType.Empty DeviceServiceServer.UpdateKeys ctx1 a.ptr
          else fun r1 => (HResult.panic, r1)
        | none => fun r1 => (HResult.panic, r1)
      intercept icp ctx req info handler d.2

def DeviceService_DeleteKeys_Handler (srv : ServerValue W) (ctx : Context) (dec : Decoder W)
    (interceptor : Option (UnaryServerInterceptor W)) (r : Run W) : HResult × Run W :=
  let d := decode dec { ty := MsgType.DeleteDeviceKeysRequest, ptr := new MsgType.DeleteDeviceKeysRequest } r
  match d.1.1 with
  | some err => (HResult.ret none (some err), d.2)
  | none =>
    let req : Any := { ty := MsgType.DeleteDeviceKeysRequest, ptr := some d.1.2 }
    match interceptor with
    | none => srv.serve "DeleteKeys" MsgType.Empty DeviceServiceServer.DeleteKeys ctx req.ptr d.2
    | some icp =>
      let info : UnaryServerInfo W := { Server := srv, FullMethod := "/api.DeviceService/DeleteKeys" }
      let handler : UnaryHandler W := fun ctx1 req1 =>
        match req1 with
        | some a =>
          if a.ty = MsgType.DeleteDeviceKeysRequest then
            srv.serve "DeleteKeys" MsgType.Empty DeviceServiceServer.DeleteKeys ctx1 a.ptr
          else fun r1 => (HResult.panic, r1)
        | none => fun r1 => (HResult.panic, r1)
      intercept icp ctx req info handler d.2

def DeviceService_FlushDevNonces_Handler (srv : ServerValue W) (ctx : Context) (dec : Decoder W)
    (interceptor : Option (UnaryServerInterceptor W)) (r : Run W) : HResult × Run W :=
  let d := decode dec { ty := MsgType.FlushDevNoncesRequest, ptr := new MsgType.FlushDevNoncesRequest } r
  match d.1.1 with
  | some err => (HResult.ret none (some err), d.2)
  | none =>
    let req : Any := { ty := MsgType.FlushDevNoncesRequest, ptr := some d.1.2 }
    match interceptor with
    | none => srv.serve "FlushDevNonces" MsgType.Empty DeviceServiceServer.FlushDevNonces ctx req.ptr d.2
    | some icp =>
      let info : UnaryServerInfo W := { Server := srv, FullMethod := "/api.DeviceService/FlushDevNonces" }
      let handler : UnaryHandler W := fun ctx1 req1 =>
        match req1 with
        | some a =>
          if a.ty = MsgType.FlushDevNoncesRequest then
            srv.serve "FlushDevNonces" MsgType.Empty DeviceServiceServer.FlushDevNonces ctx1 a.ptr
          else fun r1 => (HResult.panic, r1)
        | none => fun r1 => (HResult.panic, r1)
      intercept icp ctx req info handler d.2

def DeviceService_Activate_Handler (srv : ServerValue W) (ctx : Context) (dec : Decoder W)
    (interceptor : Option (UnaryServerInterceptor W)) (r : Run W) : HResult × Run W :=
  let d := decode dec { ty := MsgType.ActivateDeviceRequest, ptr := new MsgType.ActivateDeviceRequest } r
  match d.1.1 with
  | some err => (HResult.ret none (some err), d.2)
  | none =>
    let req : Any := { ty := MsgType.ActivateDeviceRequest, ptr := some d.1.2 }
    match interceptor with
    | none => srv.serve "Activate" MsgType.Empty DeviceServiceServer.Activate ctx req.ptr d.2
    | some icp =>
      let info : UnaryServerInfo W := { Server := srv, FullMethod := "/api.DeviceService/Activate" }
      let handler : UnaryHandler W := fun ctx1 req1 =>
        match req1 with
        | some a =>
          if a.ty = MsgType.ActivateDeviceRequest then
            srv.serve "Activate" MsgType.Empty DeviceServiceServer.Activate ctx1 a.ptr
          else fun r1 => (HResult.panic, r1)
        | none => fun r1 => (HResult.panic, r1)
      intercept icp ctx req info handler d.2

def DeviceService_Deactivate_Handler (srv : ServerValue W) (ctx : Context) (dec : Decoder W)
    (interceptor : Option (UnaryServerInterceptor W)) (r : Run W) : HResult × Run W :=
  let d := decode dec { ty := MsgType.DeactivateDeviceRequest, ptr := new MsgType.DeactivateDeviceRequest } r
  match d.1.1 with
  | some err => (HResult.ret none (some err), d.2)
  | none =>
    let req : Any := { ty := MsgType.DeactivateDeviceRequest, ptr := some d.1.2 }
    match interceptor with
    | none => srv.serve "Deactivate" MsgType.Empty DeviceServiceServer.Deactivate ctx req.ptr d.2
    | some icp =>
      let info : UnaryServerInfo W := { Server := srv, FullMethod := "/api.DeviceService/Deactivate" }
      let handler : UnaryHandler W := fun ctx1 req1 =>
        match req1 with
        | some a =>
          if a.ty = MsgType.DeactivateDeviceRequest then
            srv.serve "Deactivate" MsgType.Empty DeviceServiceServer.Deactivate ctx1 a.ptr
          else fun r1 => (HResult.panic, r1)
        | none => fun r1 => (HResult.panic, r1)
      intercept icp ctx req info handler d.2

def DeviceService_GetActivation_Handler (srv : ServerValue W) (ctx : Context) (dec : Decoder W)
    (interceptor : Option (UnaryServerInterceptor W)) (r : Run W) : HResult × Run W :=
  let d := decode dec { ty := MsgType.GetDeviceActivationRequest, ptr := new MsgType.GetDeviceActivationRequest } r
  match d.1.1 with
  | some err => (HResult.ret none (some err), d.2)
  | none =>
    let req : Any := { ty := MsgType.GetDeviceActivationRequest, ptr := some d.1.2 }
    match interceptor with
    | none => srv.serve "GetActivation" MsgType.GetDeviceActivationResponse DeviceServiceServer.GetActivation ctx req.ptr d.2
    | some icp =>
      let info : UnaryServerInfo W := { Server := srv, FullMethod := "/api.DeviceService/GetActivation" }
      let handler : UnaryHandler W := fun ctx1 req1 =>
        match req1 with
        | some a =>
          if a.ty = MsgType.GetDeviceActivationRequest then
            srv.serve "GetActivation" MsgType.GetDeviceActivationResponse DeviceServiceServer.GetActivation ctx1 a.ptr
          else fun r1 => (HResult.panic, r1)
        | none => fun r1 => (HResult.panic, r1)
      intercept icp ctx req info handler d.2

def DeviceService_GetRandomDevAddr_Handler (srv : ServerValue W) (ctx : Context) (dec : Decoder W)
    (interceptor : Option (UnaryServerInterceptor W)) (r : Run W) : HResult × Run W :=
  let d := decode dec { ty := MsgType.GetRandomDevAddrRequest, ptr := new MsgType.GetRandomDevAddrRequest } r
  match d.1.1 with
  | some err => (HResult.ret none (some err), d.2)
  | none =>
    let req : Any := { ty := MsgType.GetRandomDevAddrRequest, ptr := some d.1.2 }
    match interceptor with
    | none => srv.serve "GetRandomDevAddr" MsgType.GetRandomDevAddrResponse DeviceServiceServer.GetRandomDevAddr ctx req.ptr d.2
    | some icp =>
      let info : UnaryServerInfo W := { Server := srv, FullMethod := "/api.DeviceService/GetRandomDevAddr" }
      let handler : UnaryHandler W := fun ctx1 req1 =>
        match req1 with
        | some a =>
          if a.ty = MsgType.GetRandomDevAddrRequest then
            srv.serve "GetRandomDevAddr" MsgType.GetRandomDevAddrResponse DeviceServiceServer.GetRandomDevAddr ctx1 a.ptr
          else fun r1 => (HResult.panic, r1)
        | none => fun r1 => (HResult.panic, r1)
      intercept icp ctx req info handler d.2

def DeviceService_GetMetrics_Handler (srv : ServerValue W) (ctx : Context) (dec : Decoder W)
    (interceptor : Option (UnaryServerInterceptor W)) (r : Run W) : HResult × Run W :=
  let d := decode dec { ty := MsgType.GetDeviceMetricsRequest, ptr := new MsgType.GetDeviceMetricsRequest } r
  match d.1.1 with
  | some err => (HResult.ret none (some err), d.2)
  | none =>
    let req : Any := { ty := MsgType.GetDeviceMetricsRequest, ptr := some d.1.2 }
    match interceptor with
    | none => srv.serve "GetMetrics" MsgType.GetDeviceMetricsResponse DeviceServiceServer.GetMetrics ctx req.ptr d.2
    | some icp =>
      let info : UnaryServerInfo W := { Server := srv, FullMethod := "/api.DeviceService/GetMetrics" }
      let handler : UnaryHandler W := fun ctx1 req1 =>
        match req1 with
        | some a =>
          if a.ty = MsgType.GetDeviceMetricsRequest then
            srv.serve "GetMetrics" MsgType.GetDeviceMetricsResponse DeviceServiceServer.GetMetrics ctx1 a.ptr
          else fun r1 => (HResult.panic, r1)
        | none => fun r1 => (HResult.panic, r1)
      intercept icp ctx req info handler d.2

def DeviceService_GetLinkMetrics_Handler (srv : ServerValue W) (ctx : Context) (dec : Decoder W)
    (interceptor : Option (UnaryServerInterceptor W)) (r : Run W) : HResult × Run W :=
  let d := decode dec { ty := MsgType.GetDeviceLinkMetricsRequest, ptr := new MsgType.GetDeviceLinkMetricsRequest } r
  match d.1.1 with
  | some err => (HResult.ret none (some err), d.2)
  | none =>
    let req : Any := { ty := MsgType.GetDeviceLinkMetricsRequest, ptr := some d.1.2 }
    match interceptor with
    | none => srv.serve "GetLinkMetrics" MsgType.GetDeviceLinkMetricsResponse DeviceServiceServer.GetLinkMetrics ctx req.ptr d.2
    | some icp =>
      let info : UnaryServerInfo W := { Server := srv, FullMethod := "/api.DeviceService/GetLinkMetrics" }
      let handler : UnaryHandler W := fun ctx1 req1 =>
        match req1 with
        | some a =>
          if a.ty = MsgType.GetDeviceLinkMetricsRequest then
            srv.serve "GetLinkMetrics" MsgType.GetDeviceLinkMetricsResponse DeviceServiceServer.GetLinkMetrics ctx1 a.ptr
          else fun r1 => (HResult.panic, r1)
        | none => fun r1 => (HResult.panic, r1)
      intercept icp ctx req info handler d.2

def DeviceService_Enqueue_Handler (srv : ServerValue W) (ctx : Context) (dec : Decoder W)
    (interceptor : Option (UnaryServerInterceptor W)) (r : Run W) : HResult × Run W :=
  let d := decode dec { ty := MsgType.EnqueueDeviceQueueItemRequest, ptr := new MsgType.EnqueueDeviceQueueItemRequest } r
  match d.1.1 with
  | some err => (HResult.ret none (some err), d.2)
  | none =>
    let req : Any := { ty := MsgType.EnqueueDeviceQueueItemRequest, ptr := some d.1.2 }
    match interceptor with
    | none => srv.serve "Enqueue" MsgType.EnqueueDeviceQueueItemResponse DeviceServiceServer.Enqueue ctx req.ptr d.2
    | some icp =>
      let info : UnaryServerInfo W := { Server := srv, FullMethod := "/api.DeviceService/Enqueue" }
      let handler : UnaryHandler W := fun ctx1 req1 =>
        match req1 with
        | some a =>
          if a.ty = MsgType.EnqueueDeviceQueueItemRequest then
            srv.serve "Enqueue" MsgType.EnqueueDeviceQueueItemResponse DeviceServiceServer.Enqueue ctx1 a.ptr
          else fun r1 => (HResult.panic, r1)
        | none => fun r1 => (HResult.panic, r1)
      intercept icp ctx req info handler d.2

def DeviceService_FlushQueue_Handler (srv : ServerValue W) (ctx : Context) (dec : Decoder W)
    (interceptor : Option (UnaryServerInterceptor W)) (r : Run W) : HResult × Run W :=
  let d := decode dec { ty := MsgType.FlushDeviceQueueRequest, ptr := new MsgType.FlushDeviceQueueRequest } r
  match d.1.1 with
  | some err => (HResult.ret none (some err), d.2)
  | none =>
    let req : Any := { ty := MsgType.FlushDeviceQueueRequest, ptr := some d.1.2 }
    match interceptor with
    | none => srv.serve "FlushQueue" MsgType.Empty DeviceServiceServer.FlushQueue ctx req.ptr d.2
    | some icp =>
      let info : UnaryServerInfo W := { Server := srv, FullMethod := "/api.DeviceService/FlushQueue" }
      let handler : UnaryHandler W := fun ctx1 req1 =>
        match req1 with
        | some a =>
          if a.ty = MsgType.FlushDeviceQueueRequest then
            srv.serve "FlushQueue" MsgType.Empty DeviceServiceServer.FlushQueue ctx1 a.ptr
          else fun r1 => (HResult.panic, r1)
        | none => fun r1 => (HResult.panic, r1)
      intercept icp ctx req info handler d.2

def DeviceService_GetQueue_Handler (srv : ServerValue W) (ctx : Context) (dec : Decoder W)
    (interceptor : Option (UnaryServerInterceptor W)) (r : Run W) : HResult × Run W :=
  let d := decode dec { ty := MsgType.GetDeviceQueueItemsRequest, ptr := new MsgType.GetDeviceQueueItemsRequest } r
  match d.1.1 with
  | some err => (HResult.ret none (some err), d.2)
  | none =>
    let req : Any := { ty := MsgType.GetDeviceQueueItemsRequest, ptr := some d.1.2 }
    match interceptor with
    | none => srv.serve "GetQueue" MsgType.GetDeviceQueueItemsResponse DeviceServiceServer.GetQueue ctx req.ptr d.2
    | some icp =>
      let info : UnaryServerInfo W := { Server := srv, FullMethod := "/api.DeviceService/GetQueue" }
      let handler : UnaryHandler W := fun ctx1 req1 =>
        match req1 with
        | some a =>
          if a.ty = MsgType.GetDeviceQueueItemsRequest then
            srv.serve "GetQueue" MsgType.GetDeviceQueueItemsResponse DeviceServiceServer.GetQueue ctx1 a.ptr
          else fun r1 => (HResult.panic, r1)
        | none => fun r1 => (HResult.panic, r1)
      intercept icp ctx req info handler d.2

/-! ## Service descriptor -/

/-- The struct `grpc.MethodDesc`. -/
structure MethodDesc (W : Type) where
  MethodName : String
  Handler : ServerValue W → Context → Decoder W → Option (UnaryServerInterceptor W) →
    Run W → HResult × Run W

/-- The struct `grpc.StreamDesc`, reduced to its name. -/
structure StreamDesc where
  StreamName : String
  deriving DecidableEq, Repr

/-- The struct `grpc.ServiceDesc`; `HandlerType` is kept as the name of the interface. -/
structure ServiceDesc (W : Type) where
  ServiceName : String
  HandlerType : String
  Methods : List (MethodDesc W)
  Streams : List StreamDesc
  Metadata : String

def DeviceService_ServiceDesc (W : Type) : ServiceDesc W where
  ServiceName := "api.DeviceService"
  HandlerType := "DeviceServiceServer"
  Methods := [
    { MethodName := "Create", Handler := DeviceService_Create_Handler },
    { MethodName := "Get", Handler := DeviceService_Get_Handler },
    { MethodName := "Update", Handler := DeviceService_Update_Handler },
    { MethodName := "Delete", Handler := DeviceService_Delete_Handler },
    { MethodName := "List", Handler := DeviceService_List_Handler },
    { MethodName := "CreateKeys", Handler := DeviceService_CreateKeys_Handler },
    { MethodName := "GetKeys", Handler := DeviceService_GetKeys_Handler },
    { MethodName := "UpdateKeys", Handler := DeviceService_UpdateKeys_Handler },
    { MethodName := "DeleteKeys", Handler := DeviceService_DeleteKeys_Handler },
    { MethodName := "FlushDevNonces", Handler := DeviceService_FlushDevNonces_Handler },
    { MethodName := "Activate", Handler := DeviceService_Activate_Handler },
    { MethodName := "Deactivate", Handler := DeviceService_Deactivate_Handler },
    { MethodName := "GetActivation", Handler := DeviceService_GetActivation_Handler },
    { MethodName := "GetRandomDevAddr", Handler := DeviceService_GetRandomDevAddr_Handler },
    { MethodName := "GetMetrics", Handler := DeviceService_GetMetrics_Handler },
    { MethodName := "GetLinkMetrics", Handler := DeviceService_GetLinkMetrics_Handler },
    { MethodName := "Enqueue", Handler := DeviceService_Enqueue_Handler },
    { MethodName := "FlushQueue", Handler := DeviceService_FlushQueue_Handler },
    { MethodName := "GetQueue", Handler := DeviceService_GetQueue_Handler }
  ]
  Streams := []
  Metadata := "api/device.proto"

/-! ## The operations as an index -/

/-- The nineteen operations of the service, in the order of the interface. -/
inductive Operation
  | Create | Get | Update | Delete | List | CreateKeys | GetKeys
  | UpdateKeys | DeleteKeys | FlushDevNonces | Activate | Deactivate | GetActivation
  | GetRandomDevAddr | GetMetrics | GetLinkMetrics | Enqueue | FlushQueue | GetQueue
  deriving DecidableEq, Repr

/-- The nineteen operations as a list. -/
def allOperations : List Operation :=
  [Operation.Create, Operation.Get, Operation.Update, Operation.Delete,
   Operation.List, Operation.CreateKeys, Operation.GetKeys, Operation.UpdateKeys,
   Operation.DeleteKeys, Operation.FlushDevNonces, Operation.Activate, Operation.Deactivate,
   Operation.GetActivation, Operation.GetRandomDevAddr, Operation.GetMetrics, Operation.GetLinkMetrics,
   Operation.Enqueue, Operation.FlushQueue, Operation.GetQueue]

/-- The name of an operation, as the interface spells it. -/
def Operation.name : Operation → String
  | Operation.Create => "Create"
  | Operation.Get => "Get"
  | Operation.Update => "Update"
  | Operation.Delete => "Delete"
  | Operation.List => "List"
  | Operation.CreateKeys => "CreateKeys"
  | Operation.GetKeys => "GetKeys"
  | Operation.UpdateKeys => "UpdateKeys"
  | Operation.DeleteKeys => "DeleteKeys"
  | Operation.FlushDevNonces => "FlushDevNonces"
  | Operation.Activate => "Activate"
  | Operation.Deactivate => "Deactivate"
  | Operation.GetActivation => "GetActivation"
  | Operation.GetRandomDevAddr => "GetRandomDevAddr"
  | Operation.GetMetrics => "GetMetrics"
  | Operation.GetLinkMetrics => "GetLinkMetrics"
  | Operation.Enqueue => "Enqueue"
  | Operation.FlushQueue => "FlushQueue"
  | Operation.GetQueue => "GetQueue"

/-- The request type in the signature of each operation. -/
def Operation.requestType : Operation → MsgType
  | Operation.Create => MsgType.CreateDeviceRequest
  | Operation.Get => MsgType.GetDeviceRequest
  | Operation.Update => MsgType.UpdateDeviceRequest
  | Operation.Delete => MsgType.DeleteDeviceRequest
  | Operation.List => MsgType.ListDevicesRequest
  | Operation.CreateKeys => MsgType.CreateDeviceKeysRequest
  | Operation.GetKeys => MsgType.GetDeviceKeysRequest
  | Operation.UpdateKeys => MsgType.UpdateDeviceKeysRequest
  | Operation.DeleteKeys => MsgType.DeleteDeviceKeysRequest
  | Operation.FlushDevNonces => MsgType.FlushDevNoncesRequest
  | Operation.Activate => MsgType.ActivateDeviceRequest
  | Operation.Deactivate => MsgType.DeactivateDeviceRequest
  | Operation.GetActivation => MsgType.GetDeviceActivationRequest
  | Operation.GetRandomDevAddr => MsgType.GetRandomDevAddrRequest
  | Operation.GetMetrics => MsgType.GetDeviceMetricsRequest
  | Operation.GetLinkMetrics => MsgType.GetDeviceLinkMetricsRequest
  | Operation.Enqueue => MsgType.EnqueueDeviceQueueItemRequest
  | Operation.FlushQueue => MsgType.FlushDeviceQueueRequest
  | Operation.GetQueue => MsgType.GetDeviceQueueItemsRequest

/-- The response type in the signature of each operation. -/
def Operation.responseType : Operation → MsgType
  | Operation.Create => MsgType.Empty
  | Operation.Get => MsgType.GetDeviceResponse
  | Operation.Update => MsgType.Empty
  | Operation.Delete => MsgType.Empty
  | Operation.List => MsgType.ListDevicesResponse
  | Operation.CreateKeys => MsgType.Empty
  | Operation.GetKeys => MsgType.GetDeviceKeysResponse
  | Operation.UpdateKeys => MsgType.Empty
  | Operation.DeleteKeys => MsgType.Empty
  | Operation.FlushDevNonces => MsgType.Empty
  | Operation.Activate => MsgType.Empty
  | Operation.Deactivate => MsgType.Empty
  | Operation.GetActivation => MsgType.GetDeviceActivationResponse
  | Operation.GetRandomDevAddr => MsgType.GetRandomDevAddrResponse
  | Operation.GetMetrics => MsgType.GetDeviceMetricsResponse
  | Operation.GetLinkMetrics => MsgType.GetDeviceLinkMetricsResponse
  | Operation.Enqueue => MsgType.EnqueueDeviceQueueItemResponse
  | Operation.FlushQueue => MsgType.Empty
  | Operation.GetQueue => MsgType.GetDeviceQueueItemsResponse

/-- The method of a server for an operation. -/
def DeviceServiceServer.method (s : DeviceServiceServer W) :
    Operation → Context → Ptr → W → (Ptr × Option Error) × W
  | Operation.Create => s.Create
  | Operation.Get => s.Get
  | Operation.Update => s.Update
  | Operation.Delete => s.Delete
  | Operation.List => s.List
  | Operation.CreateKeys => s.CreateKeys
  | Operation.GetKeys => s.GetKeys
  | Operation.UpdateKeys => s.UpdateKeys
  | Operation.DeleteKeys => s.DeleteKeys
  | Operation.FlushDevNonces => s.FlushDevNonces
  | Operation.Activate => s.Activate
  | Operation.Deactivate => s.Deactivate
  | Operation.GetActivation => s.GetActivation
  | Operation.GetRandomDevAddr => s.GetRandomDevAddr
  | Operation.GetMetrics => s.GetMetrics
  | Operation.GetLinkMetrics => s.GetLinkMetrics
  | Operation.Enqueue => s.Enqueue
  | Operation.FlushQueue => s.FlushQueue
  | Operation.GetQueue => s.GetQueue

/-- The method of the client stub for an operation. -/
def deviceServiceClient.method (c : deviceServiceClient W) :
    Operation → Context → Ptr → CallOptions → Run W → ClientResult × Run W
  | Operation.Create => c.Create
  | Operation.Get => c.Get
  | Operation.Update => c.Update
  | Operation.Delete => c.Delete
  | Operation.List => c.List
  | Operation.CreateKeys => c.CreateKeys
  | Operation.GetKeys => c.GetKeys
  | Operation.UpdateKeys => c.UpdateKeys
  | Operation.DeleteKeys => c.DeleteKeys
  | Operation.FlushDevNonces => c.FlushDevNonces
  | Operation.Activate => c.Activate
  | Operation.Deactivate => c.Deactivate
  | Operation.GetActivation => c.GetActivation
  | Operation.GetRandomDevAddr => c.GetRandomDevAddr
  | Operation.GetMetrics => c.GetMetrics
  | Operation.GetLinkMetrics => c.GetLinkMetrics
  | Operation.Enqueue => c.Enqueue
  | Operation.FlushQueue => c.FlushQueue
  | Operation.GetQueue => c.GetQueue

/-- The generated handler function of an operation. -/
def Operation.handler :
    Operation → ServerValue W → Context → Decoder W → Option (UnaryServerInterceptor W) →
      Run W → HResult × Run W
  | Operation.Create => DeviceService_Create_Handler
  | Operation.Get => DeviceService_Get_Handler
  | Operation.Update => DeviceService_Update_Handler
  | Operation.Delete => DeviceService_Delete_Handler
  | Operation.List => DeviceService_List_Handler
  | Operation.CreateKeys => DeviceService_CreateKeys_Handler
  | Operation.GetKeys => DeviceService_GetKeys_Handler
  | Operation.UpdateKeys => DeviceService_UpdateKeys_Handler
  | Operation.DeleteKeys => DeviceService_DeleteKeys_Handler
  | Operation.FlushDevNonces => DeviceService_FlushDevNonces_Handler
  | Operation.Activate => DeviceService_Activate_Handler
  | Operation.Deactivate => DeviceService_Deactivate_Handler
  | Operation.GetActivation => DeviceService_GetActivation_Handler
  | Operation.GetRandomDevAddr => DeviceService_GetRandomDevAddr_Handler
  | Operation.GetMetrics => DeviceService_GetMetrics_Handler
  | Operation.GetLinkMetrics => DeviceService_GetLinkMetrics_Handler
  | Operation.Enqueue => DeviceService_Enqueue_Handler
  | Operation.FlushQueue => DeviceService_FlushQueue_Handler
  | Operation.GetQueue => DeviceService_GetQueue_Handler

/-! ## The common shape of the generated code

The nineteen client methods and the nineteen handlers differ only in the operation they name.
`genericClient` and `genericHandler` state that shape once, with the operation as a parameter;
they are proved equal to the embedded functions below and used to reason about all of them. -/

/-- The full method path of an operation. -/
def Operation.path (op : Operation) : String := "/api.DeviceService/" ++ op.name

/-- The request `in := new(T)` that a handler allocates for the decoder. -/
def Operation.fresh (op : Operation) : Any :=
  { ty := op.requestType, ptr := new op.requestType }

/-- The request of a handler after the decoder has written `body` into it. -/
def Operation.filled (op : Operation) (body : Body) : Any :=
  { ty := op.requestType, ptr := some body }

/-- The request `in` of a client method as the `interface{}` passed to `Invoke`. -/
def Operation.args (op : Operation) (req : Ptr) : Any :=
  { ty := op.requestType, ptr := req }

/-- The reply `out := new(T)` that a client method allocates for `Invoke`. -/
def Operation.reply (op : Operation) : Any :=
  { ty := op.responseType, ptr := new op.responseType }

/-- The shape of a client method. -/
def genericClient (op : Operation) (c : deviceServiceClient W) (ctx : Context) (req : Ptr)
    (opts : CallOptions) (r : Run W) : ClientResult × Run W :=
  let res := c.cc.invoke ctx op.path (op.args req) op.reply opts r
  match res.1.1 with
  | some err => ((none, some err), res.2)
  | none => ((some res.1.2, none), res.2)

/-- The continuation `handler` that the handler of `op` builds for the interceptor. -/
def Operation.continuation (op : Operation) (srv : ServerValue W) : UnaryHandler W :=
  fun ctx1 req1 =>
    match req1 with
    | some a =>
      if a.ty = op.requestType then
        srv.serve op.name op.responseType (fun s => s.method op) ctx1 a.ptr
      else fun r1 => (HResult.panic, r1)
    | none => fun r1 => (HResult.panic, r1)

/-- The info `&grpc.UnaryServerInfo{...}` that the handler of `op` builds. -/
def Operation.info (op : Operation) (srv : ServerValue W) : UnaryServerInfo W :=
  { Server := srv, FullMethod := op.path }

/-- The shape of a handler. -/
def genericHandler (op : Operation) (srv : ServerValue W) (ctx : Context) (dec : Decoder W)
    (interceptor : Option (UnaryServerInterceptor W)) (r : Run W) : HResult × Run W :=
  let d := decode dec op.fresh r
  match d.1.1 with
  | some err => (HResult.ret none (some err), d.2)
  | none =>
    match interceptor with
    | none => srv.serve op.name op.responseType (fun s => s.method op) ctx (some d.1.2) d.2
    | some icp => intercept icp ctx (op.filled d.1.2) (op.info srv) (op.continuation srv) d.2

/-! ## Observing a run -/

/-- The continuation calls `(ctx, req)` that an interceptor's behaviour makes when it is run
against `handler`, in order. -/
def Strategy.requests (handler : UnaryHandler W) :
    Strategy W → List Call → List (Context × Option Any)
  | Strategy.ret _ _, _ => []
  | Strategy.call ctx req w k, calls =>
    let h := handler ctx req { world := w, calls := calls }
    (ctx, req) :: Strategy.requests handler (k h.1 h.2.world) h.2.calls

/-- The server call that a continuation call of the handler of `op` leads to: the call of
the method of `op` when the request passes the assertion `req.(*T)`, none when it panics. -/
def Operation.served (op : Operation) : Context × Option Any → Option Call
  | (ctx, some a) => if a.ty = op.requestType then some (Call.serve op.name ctx a.ptr) else none
  | (_, none) => none

/-- The continuation calls that the interceptor makes during one call of the handler of `op`:
none when decoding fails. -/
def continuationCalls (op : Operation) (srv : ServerValue W) (ctx : Context) (dec : Decoder W)
    (icp : UnaryServerInterceptor W) (r : Run W) : List (Context × Option Any) :=
  let d := decode dec op.fresh r
  match d.1.1 with
  | some _ => []
  | none =>
    Strategy.requests (op.continuation srv) (icp ctx (op.filled d.1.2) (op.info srv) d.2.world)
      (d.2.calls ++ [Call.intercept op.path ctx (op.filled d.1.2)])

/-- Whether a recorded call is a call of `Invoke`. -/
def Call.isInvoke : Call → Bool
  | Call.invoke _ _ _ _ => true
  | _ => false

/-- Whether a recorded call is a call of the decoder. -/
def Call.isDecode : Call → Bool
  | Call.decode _ => true
  | _ => false

/-- Whether a recorded call is a call of a server method. -/
def Call.isServe : Call → Bool
  | Call.serve _ _ _ => true
  | _ => false

/-- Whether a recorded call is a call of the interceptor. -/
def Call.isIntercept : Call → Bool
  | Call.intercept _ _ _ => true
  | _ => false

/-- The embedded field of a struct that embeds the default server: the struct
`UnimplementedDeviceServiceServer` by value, or a pointer `*UnimplementedDeviceServiceServer`
that is set, or such a pointer left nil.  All three give the struct the method set of
`DeviceServiceServer`. -/
inductive EmbeddedField
  | value
  | pointer
  | nilPointer
  deriving DecidableEq, Repr

/-- A server struct of an implementer: its embedded field and the methods it declares itself
(`own op` is `none` for an operation it does not declare). -/
structure Implementer (W : Type) where
  embedded : EmbeddedField
  own : Operation → Option (Context → Ptr → W → (Ptr × Option Error) × W)

/-- What a method call on an implementer does: it returns, or it panics. -/
inductive Outcome (α : Type) : Type
  | returned (a : α)
  | panic

/-- The call `s.M(ctx, req)` on an implementer.  A method the struct declares is called as it
is.  For any other operation Go promotes the method of the embedded field; the 19 methods of
`UnimplementedDeviceServiceServer` have value receivers, so through an embedded pointer the
receiver is read by dereferencing it, which panics when the pointer is nil. -/
def Implementer.call (s : Implementer W) (op : Operation) (ctx : Context) (req : Ptr) (w : W) :
    Outcome ((Ptr × Option Error) × W) :=
  match s.own op with
  | some f => Outcome.returned (f ctx req w)
  | none =>
    match s.embedded with
    | EmbeddedField.nilPointer => Outcome.panic
    | _ => Outcome.returned ((UnimplementedDeviceServiceServer W).method op ctx req w)

/-- The operation set the spec names for the service boundary (its section 6), group by
group: device CRUD, key CRUD, nonce flush, activation, queue, metrics. -/
def specOperations : List String :=
  ["Create", "Get", "Update", "Delete", "List"] ++
  ["CreateKeys", "GetKeys", "UpdateKeys", "DeleteKeys"] ++
  ["FlushDevNonces"] ++
  ["Activate", "Deactivate", "GetActivation", "GetRandomDevAddr"] ++
  ["Enqueue", "FlushQueue", "GetQueue"] ++
  ["GetMetrics", "GetLinkMetrics"]

/-! ## Collaborators used as concrete inputs -/

/-- A decoder that succeeds and writes `body` into the request. -/
def decodeOk (body : Body) : Decoder W := fun _ w => ((none, body), w)

/-- A decoder that fails with `e`. -/
def decodeFail (e : Error) : Decoder W := fun _ w => ((some e, []), w)

/-- The interceptor `func(ctx, req, info, handler) { return handler(ctx, req) }`. -/
def passThrough : UnaryServerInterceptor W :=
  fun ctx req _ w => Strategy.call ctx (some req) w (fun res w1 => Strategy.ret res w1)

/-- The interceptor `func(ctx, req, info, handler) { handler(ctx, req); return handler(ctx, req) }`,
which runs the continuation a second time. -/
def callTwice : UnaryServerInterceptor W :=
  fun ctx req _ w =>
    Strategy.call ctx (some req) w (fun _ w1 =>
      Strategy.call ctx (some req) w1 (fun res w2 => Strategy.ret res w2))

/-- The interceptor `func(ctx, req, info, handler) { return nil, errors.New(info.FullMethod) }`:
it never calls its continuation and reports the method name it was told. -/
def reportMethod : UnaryServerInterceptor W :=
  fun _ _ info w => Strategy.ret (HResult.ret none (some (Error.other info.FullMethod))) w

/-- A server over a counter: `Create` returns an empty response and counts its runs in the
world; every other method is the default one. -/
def countingServer : DeviceServiceServer Nat :=
  { UnimplementedDeviceServiceServer Nat with
    Create := fun _ _ w => ((some [], none), w + 1) }

/-- The interceptor
`func(ctx, req, info, handler) { return info.Server.(DeviceServiceServer).Create(ctx, req.(*CreateDeviceRequest)) }`:
it never calls its continuation and calls the server method itself, on the server that the
handler gave it in `info`. -/
def callsServerItself : UnaryServerInterceptor W :=
  fun ctx req info w =>
    match info.Server with
    | ServerValue.foreign _ => Strategy.ret HResult.panic w
    | ServerValue.impl s =>
      if req.ty = MsgType.CreateDeviceRequest then
        Strategy.ret
          (HResult.ret (some { ty := MsgType.Empty, ptr := (s.Create ctx req.ptr w).1.1 })
            (s.Create ctx req.ptr w).1.2)
          (s.Create ctx req.ptr w).2
      else Strategy.ret HResult.panic w

/-- A connection whose `Invoke` writes nothing and fails with the method path it was given. -/
def reportingConn : ClientConnInterface W where
  Invoke := fun _ method _ _ _ w => ((some (Error.other method), []), w)

/-- A connection whose `Invoke` fails with `e` and writes nothing. -/
def failingConn (e : Error) : ClientConnInterface W where
  Invoke := fun _ _ _ _ _ w => ((some e, []), w)

/-- A connection whose `Invoke` succeeds and writes `body` into the reply. -/
def answeringConn (body : Body) : ClientConnInterface W where
  Invoke := fun _ _ _ _ _ w => ((none, body), w)

end Api

/-! # Part 2: the device core behind the service

The repository's files under `src/` hold only the generated glue above.  The activation and
downlink-queue core that the service methods `Activate`, `Deactivate`, `GetActivation`,
`FlushDevNonces`, `Enqueue`, `FlushQueue` and `GetQueue` are declared for is not among them, so
it is modelled from the spec (sections 3 and 4).  Storage is taken to be reliable (no
`StorageUnavailable`) and every operation is atomic.  The device registry is an external
collaborator; its create, update and delete are modelled by their contract (sections 3 and
6), delete with the cascade the spec demands.
-/

namespace Core

/-- A 64-bit device identifier. -/
abbrev DevEUI := Nat

/-- A join-server identifier. -/
abbrev JoinEUI := Nat

/-- A network address. -/
abbrev DevAddr := Nat

/-- A point in time. -/
abbrev Time := Nat

/-- Modelled from the spec: the error kinds of its section 7. -/
inductive ErrorKind
  | NotFound | AlreadyExists | InvalidParameters | ReplayDetected | AddressConflict
  | AddressSpaceExhausted | InvalidKeyMaterial | NotActivated | StorageUnavailable
  deriving DecidableEq, Repr

/-- Modelled from the spec: a Device record of the registry (section 3). -/
structure Device where
  profile : Nat
  enabled : Bool
  lastSeen : Option Time
  skipNonceValidation : Bool
  deriving DecidableEq, Repr

/-- Modelled from the spec: the root keys of a device (section 3). -/
structure DeviceKeys where
  nwkKey : Option Nat
  appKey : Option Nat
  deriving DecidableEq, Repr

/-- Modelled from the spec: the MAC versions section 4.1 tells apart. -/
inductive MacVersion
  | v1_0 | v1_1
  deriving DecidableEq, Repr

/-- Modelled from the spec: the derived session keys (section 3). -/
structure SessionKeys where
  nwkSKeys : List Nat
  appSKey : Nat
  deriving DecidableEq, Repr

/-- Modelled from the spec: the activation mode. -/
inductive Mode
  | OTAA | ABP
  deriving DecidableEq, Repr

/-- Modelled from the spec: the DeviceActivation (session) of section 3.  `lastFCntDown` is
the last transmitted or acknowledged downlink frame counter of the session. -/
structure DeviceActivation where
  devAddr : DevAddr
  keys : SessionKeys
  fCntUp : Nat
  lastFCntDown : Nat
  macVersion : MacVersion
  mode : Mode
  deriving DecidableEq, Repr

/-- Modelled from the spec: a DeviceQueueItem (section 3).  `fCntDown` is assigned at
transmission time; `inFlight` is the status transmitted and not yet acknowledged. -/
structure DeviceQueueItem where
  seq : Nat
  payload : List Nat
  confirmed : Bool
  fCntDown : Option Nat
  expiry : Option Time
  inFlight : Bool
  deriving DecidableEq, Repr

/-- What a caller of Enqueue supplies of a queue item. -/
structure QueueItemInput where
  payload : List Nat
  confirmed : Bool
  expiry : Option Time
  deriving DecidableEq, Repr

/-- Modelled from the spec: the persisted state of section 6, one entry per DevEUI, and the
clock that lazy expiry is evaluated against.  `devices` is the registry. -/
structure State where
  now : Time
  devices : DevEUI → Option Device
  keys : DevEUI → Option DeviceKeys
  sessions : List (DevEUI × DeviceActivation)
  nonces : DevEUI → JoinEUI → List Nat
  queue : DevEUI → List DeviceQueueItem
  nextSeq : DevEUI → Nat

/-- The map `f` with the entry of `k` replaced by `v`. -/
def upd {α : Type} (f : Nat → α) (k : Nat) (v : α) : Nat → α :=
  fun x => if x = k then v else f x

/-- The session stored for `d` in a list of sessions, if there is one. -/
def lookupSession (l : List (DevEUI × DeviceActivation)) (d : DevEUI) :
    Option DeviceActivation :=
  (l.find? (fun e => e.1 = d)).map (fun e => e.2)

/-- The session of a device, if it has one. -/
def State.activation (s : State) (d : DevEUI) : Option DeviceActivation :=
  lookupSession s.sessions d

/-- The sessions with the session of `d` destroyed. -/
def dropSession (l : List (DevEUI × DeviceActivation)) (d : DevEUI) :
    List (DevEUI × DeviceActivation) :=
  l.filter (fun e => e.1 ≠ d)

/-- The sessions with `a` installed as the one session of `d`. -/
def putSession (l : List (DevEUI × DeviceActivation)) (d : DevEUI) (a : DeviceActivation) :
    List (DevEUI × DeviceActivation) :=
  (d, a) :: dropSession l d

/-- The parameters of an OTAA activation (section 4.3): the join exchange, the MAC version,
and explicit frame counters when a session is imported. -/
structure OtaaParams where
  joinEUI : JoinEUI
  devNonce : Nat
  joinNonce : Nat
  macVersion : Option MacVersion
  fCntUp : Option Nat
  fCntDown : Option Nat
  deriving DecidableEq, Repr

/-- The parameters of an ABP activation (section 4.3): address and session keys directly. -/
structure AbpParams where
  devAddr : DevAddr
  keys : SessionKeys
  macVersion : Option MacVersion
  fCntUp : Option Nat
  fCntDown : Option Nat
  deriving DecidableEq, Repr

/-- The parameters of Activate, by mode. -/
inductive ActivateParams
  | otaa (p : OtaaParams)
  | abp (p : AbpParams)
  deriving DecidableEq, Repr

/-- What the spec leaves to collaborators or to a documented choice: the key derivation of
KeyManager.DeriveSession (`none` is InvalidKeyMaterial), the address an OTAA session gets,
the field validation rules per MAC version, and whether Activate flushes the queue (the open
questions of section 9). -/
structure Env where
  deriveSession : DeviceKeys → Nat → Nat → JoinEUI → MacVersion → Option SessionKeys
  otaaDevAddr : DevEUI → DevAddr
  paramsValid : ActivateParams → Bool
  flushOnActivate : Bool

/-! ## NonceTracker (section 4.2) -/

/-- Whether the skip-validation flag of the device is set in the registry. -/
def skipValidation (s : State) (d : DevEUI) : Bool :=
  match s.devices d with
  | some dev => dev.skipNonceValidation
  | none => false

/-- Modelled from the spec: NonceTracker.ValidateAndConsume (section 4.2), whose code is not
under `src/`.  It rejects a nonce seen before for the pair unless the skip-validation flag of
the device is set, and on success records the nonce. -/
def ValidateAndConsume (s : State) (d : DevEUI) (j : JoinEUI) (n : Nat) :
    Option ErrorKind × State :=
  if n ∈ s.nonces d j ∧ skipValidation s d = false then
    (some ErrorKind.ReplayDetected, s)
  else
    (none, { s with nonces := upd s.nonces d (upd (s.nonces d) j ((s.nonces d j).insert n)) })

/-- Modelled from the spec: NonceTracker.Flush (section 4.2), the implementation of the
service method FlushDevNonces, whose code is not under `src/`.  It clears all recorded nonces
of the device and leaves the session alone. -/
def Flush (s : State) (d : DevEUI) : Option ErrorKind × State :=
  (none, { s with nonces := upd s.nonces d (fun _ => []) })

/-! ## DeviceRegistry (sections 3 and 6) -/

/-- Modelled from the spec: the registry's create of a device (the implementation of the
service method Create, not under `src/`): conflict on a duplicate create. -/
def CreateDevice (s : State) (d : DevEUI) (dev : Device) : Option ErrorKind × State :=
  match s.devices d with
  | some _ => (some ErrorKind.AlreadyExists, s)
  | none => (none, { s with devices := upd s.devices d (some dev) })

/-- Modelled from the spec: the registry's update of a device (the implementation of the
service method Update, not under `src/`): not-found on a missing key.  It is how the
skip-validation flag of a device changes. -/
def UpdateDevice (s : State) (d : DevEUI) (dev : Device) : Option ErrorKind × State :=
  match s.devices d with
  | none => (some ErrorKind.NotFound, s)
  | some _ => (none, { s with devices := upd s.devices d (some dev) })

/-- Modelled from the spec: the registry's delete of a device (the implementation of the
service method Delete, not under `src/`): not-found on a missing key, otherwise the device is
destroyed and with it its activation, keys, nonce history and queue (section 3). -/
def DeleteDevice (s : State) (d : DevEUI) : Option ErrorKind × State :=
  match s.devices d with
  | none => (some ErrorKind.NotFound, s)
  | some _ =>
    (none,
      { s with
        devices := upd s.devices d none
        keys := upd s.keys d none
        sessions := dropSession s.sessions d
        nonces := upd s.nonces d (fun _ => [])
        queue := upd s.queue d [] })

/-! ## KeyManager (section 4.1) -/

/-- Modelled from the spec: the implementation of CreateKeys (section 4.1), not under `src/`:
plain CRUD, gated by device existence. -/
def CreateKeys (s : State) (d : DevEUI) (k : DeviceKeys) : Option ErrorKind × State :=
  match s.devices d, s.keys d with
  | none, _ => (some ErrorKind.NotFound, s)
  | some _, some _ => (some ErrorKind.AlreadyExists, s)
  | some _, none => (none, { s with keys := upd s.keys d (some k) })

/-- Modelled from the spec: the implementation of UpdateKeys (section 4.1), not under `src/`:
plain CRUD, gated by device existence. -/
def UpdateKeys (s : State) (d : DevEUI) (k : DeviceKeys) : Option ErrorKind × State :=
  match s.devices d, s.keys d with
  | some _, some _ => (none, { s with keys := upd s.keys d (some k) })
  | _, _ => (some ErrorKind.NotFound, s)

/-- Modelled from the spec: the implementation of DeleteKeys (section 4.1), not under `src/`:
plain CRUD, gated by device existence; a live session keeps its derived keys. -/
def DeleteKeys (s : State) (d : DevEUI) : Option ErrorKind × State :=
  match s.devices d, s.keys d with
  | some _, some _ => (none, { s with keys := upd s.keys d none })
  | _, _ => (some ErrorKind.NotFound, s)

/-! ## ActivationEngine (section 4.3) -/

/-- The state with `a` installed as the session of `d`, replacing any prior session in one
step; the queue is flushed when that is the documented policy. -/
def install (env : Env) (s : State) (d : DevEUI) (a : DeviceActivation) : State :=
  { s with
    sessions := putSession s.sessions d a
    queue := if env.flushOnActivate then upd s.queue d [] else s.queue }

/-- Modelled from the spec: ActivationEngine.Activate (section 4.3), the implementation of the
service method Activate, whose code is not under `src/`.  OTAA validates and consumes the join
nonce, derives the session keys and installs a session with frame counters at zero or at the
explicit values; ABP checks that the address is bound to no other device and installs the
session directly.  A failing call leaves the state as it was. -/
def Activate (env : Env) (s : State) (d : DevEUI) (p : ActivateParams) :
    Option ErrorKind × State :=
  match s.devices d with
  | none => (some ErrorKind.NotFound, s)
  | some _ =>
    if env.paramsValid p = false then (some ErrorKind.InvalidParameters, s)
    else
      match p with
      | ActivateParams.otaa o =>
        match o.macVersion with
        | none => (some ErrorKind.InvalidParameters, s)
        | some v =>
          let vc := ValidateAndConsume s d o.joinEUI o.joinNonce
          match vc.1 with
          | some e => (some e, s)
          | none =>
            match s.keys d with
            | none => (some ErrorKind.InvalidKeyMaterial, s)
            | some k =>
              match env.deriveSession k o.joinNonce o.devNonce o.joinEUI v with
              | none => (some ErrorKind.InvalidKeyMaterial, s)
              | some sk =>
                (none, install env vc.2 d
                  { devAddr := env.otaaDevAddr d, keys := sk, fCntUp := o.fCntUp.getD 0,
                    lastFCntDown := o.fCntDown.getD 0, macVersion := v, mode := Mode.OTAA })
      | ActivateParams.abp a =>
        match a.macVersion with
        | none => (some ErrorKind.InvalidParameters, s)
        | some v =>
          if s.sessions.any (fun e => decide (e.1 ≠ d) && decide (e.2.devAddr = a.devAddr)) then
            (some ErrorKind.AddressConflict, s)
          else
            (none, install env s d
              { devAddr := a.devAddr, keys := a.keys, fCntUp := a.fCntUp.getD 0,
                lastFCntDown := a.fCntDown.getD 0, macVersion := v, mode := Mode.ABP })

/-- Modelled from the spec: ActivationEngine.Deactivate (section 4.3), the implementation of
the service method Deactivate, whose code is not under `src/`.  It destroys the session; on a
device without one it succeeds and changes nothing. -/
def Deactivate (s : State) (d : DevEUI) : Option ErrorKind × State :=
  (none, { s with sessions := dropSession s.sessions d })

/-- Modelled from the spec: ActivationEngine.GetActivation (section 4.3), the implementation
of the service method GetActivation, whose code is not under `src/`: the session or
NotActivated. -/
def GetActivation (s : State) (d : DevEUI) : Except ErrorKind DeviceActivation :=
  match s.activation d with
  | some a => Except.ok a
  | none => Except.error ErrorKind.NotActivated

/-! ## DownlinkQueueManager (section 4.4) -/

/-- Whether an item has expired at time `now`. -/
def expired (now : Time) (it : DeviceQueueItem) : Bool :=
  match it.expiry with
  | some e => decide (e ≤ now)
  | none => false

/-- The item that Enqueue stores for an input: not yet transmitted, no frame counter. -/
def stored (seq : Nat) (item : QueueItemInput) : DeviceQueueItem :=
  { seq := seq, payload := item.payload, confirmed := item.confirmed, fCntDown := none,
    expiry := item.expiry, inFlight := false }

/-- Modelled from the spec: DownlinkQueueManager.Enqueue (section 4.4), the implementation of
the service method Enqueue, whose code is not under `src/`.  It appends the item to the tail
of the queue of an existing device, with or without a session, and returns its position. -/
def Enqueue (s : State) (d : DevEUI) (item : QueueItemInput) : Except ErrorKind Nat × State :=
  match s.devices d with
  | none => (Except.error ErrorKind.NotFound, s)
  | some _ =>
    (Except.ok (s.queue d).length,
      { s with
        queue := upd s.queue d (s.queue d ++ [stored (s.nextSeq d) item])
        nextSeq := upd s.nextSeq d (s.nextSeq d + 1) })

/-- Modelled from the spec: DownlinkQueueManager.GetQueue (section 4.4), the implementation of
the service method GetQueue, whose code is not under `src/`.  A read-only snapshot in FIFO
order, in-flight items included; expiry is evaluated at the time of the call, so an item that
has expired is no longer part of it. -/
def GetQueue (s : State) (d : DevEUI) : List DeviceQueueItem :=
  (s.queue d).filter (fun it => !expired s.now it)

/-- Modelled from the spec: DownlinkQueueManager.FlushQueue (section 4.4), the implementation
of the service method FlushQueue, whose code is not under `src/`.  It removes all items of the
device. -/
def FlushQueue (s : State) (d : DevEUI) : Option ErrorKind × State :=
  (none, { s with queue := upd s.queue d [] })

/-- Modelled from the spec: DownlinkQueueManager.NextForTransmission (section 4.4), whose code
is not under `src/`.  With an active session it takes the head of the unexpired queue, assigns
it `lastFCntDown + 1` and marks it in-flight; a confirmed item stays at the head, an
unconfirmed one is removed.  The assigned counter becomes the `lastFCntDown` of the session:
section 3 calls it the last transmitted or acknowledged counter, and the scenario of section 8
(three unconfirmed items, three increasing counters, no acknowledgement) needs it to advance
at transmission. -/
def NextForTransmission (s : State) (d : DevEUI) : Option DeviceQueueItem × State :=
  match s.activation d with
  | none => (none, s)
  | some act =>
    match GetQueue s d with
    | [] => (none, { s with queue := upd s.queue d [] })
    | it :: rest =>
      let c := act.lastFCntDown + 1
      let sent : DeviceQueueItem := { it with fCntDown := some c, inFlight := true }
      (some sent,
        { s with
          queue := upd s.queue d (if it.confirmed then sent :: rest else rest)
          sessions := putSession s.sessions d { act with lastFCntDown := c } })

/-- Whether an item is the in-flight confirmed item with counter `c`. -/
def awaitsAck (c : Nat) (it : DeviceQueueItem) : Bool :=
  it.inFlight && it.confirmed && decide (it.fCntDown = some c)

/-- Modelled from the spec: DownlinkQueueManager.Acknowledge (section 4.4), whose code is not
under `src/`.  It removes the in-flight confirmed item with the matching counter and advances
`lastFCntDown` to that counter if it is behind; an acknowledgement that matches nothing is
ignored. -/
def Acknowledge (s : State) (d : DevEUI) (c : Nat) : State :=
  match s.activation d with
  | none => s
  | some act =>
    if (s.queue d).any (awaitsAck c) then
      { s with
        queue := upd s.queue d ((s.queue d).filter (fun it => !awaitsAck c it))
        sessions := putSession s.sessions d { act with lastFCntDown := max act.lastFCntDown c } }
    else s

/-! ## Sequences of operations -/

/-- The state-changing operations of the core and of the registry, and the passing of
time. -/
inductive Op
  | tick (dt : Nat)
  | createDevice (d : DevEUI) (dev : Device)
  | updateDevice (d : DevEUI) (dev : Device)
  | deleteDevice (d : DevEUI)
  | validateAndConsume (d : DevEUI) (j : JoinEUI) (n : Nat)
  | flush (d : DevEUI)
  | createKeys (d : DevEUI) (k : DeviceKeys)
  | updateKeys (d : DevEUI) (k : DeviceKeys)
  | deleteKeys (d : DevEUI)
  | activate (d : DevEUI) (p : ActivateParams)
  | deactivate (d : DevEUI)
  | enqueue (d : DevEUI) (item : QueueItemInput)
  | flushQueue (d : DevEUI)
  | nextForTransmission (d : DevEUI)
  | acknowledge (d : DevEUI) (c : Nat)
  deriving DecidableEq, Repr

/-- The state with the clock advanced by `dt`. -/
def advance (s : State) (dt : Nat) : State :=
  { s with now := s.now + dt }

/-- The state after one operation. -/
def step (env : Env) (s : State) : Op → State
  | Op.tick dt => advance s dt
  | Op.createDevice d dev => (CreateDevice s d dev).2
  | Op.updateDevice d dev => (UpdateDevice s d dev).2
  | Op.deleteDevice d => (DeleteDevice s d).2
  | Op.validateAndConsume d j n => (ValidateAndConsume s d j n).2
  | Op.flush d => (Flush s d).2
  | Op.createKeys d k => (CreateKeys s d k).2
  | Op.updateKeys d k => (UpdateKeys s d k).2
  | Op.deleteKeys d => (DeleteKeys s d).2
  | Op.activate d p => (Activate env s d p).2
  | Op.deactivate d => (Deactivate s d).2
  | Op.enqueue d item => (Enqueue s d item).2
  | Op.flushQueue d => (FlushQueue s d).2
  | Op.nextForTransmission d => (NextForTransmission s d).2
  | Op.acknowledge d c => Acknowledge s d c

/-- The state after a sequence of operations. -/
def run (env : Env) (s : State) (ops : List Op) : State :=
  ops.foldl (step env) s

/-- The state after a sequence of Enqueue calls on one device. -/
def enqueueAll (s : State) (d : DevEUI) (items : List QueueItemInput) : State :=
  items.foldl (fun t item => (Enqueue t d item).2) s

/-- The items that a sequence of Enqueue calls stores, the first with sequence number `seq`. -/
def storedFrom : Nat → List QueueItemInput → List DeviceQueueItem
  | _, [] => []
  | seq, item :: items => stored seq item :: storedFrom (seq + 1) items

/-- Whether an operation, run in `s`, leaves the session of `d` in place: it is not an
Activate for `d` that succeeds. -/
def keepsSession (env : Env) (d : DevEUI) (s : State) : Op → Bool
  | Op.activate d2 p => decide (d2 ≠ d) || (Activate env s d2 p).1.isSome
  | _ => true

/-- Whether no operation of the sequence, started in `s`, is an Activate that installs a fresh
session for `d`. -/
def sessionKept (env : Env) (d : DevEUI) : State → List Op → Bool
  | _, [] => true
  | s, op :: ops => keepsSession env d s op && sessionKept env d (step env s op) ops

/-! ## Concrete inputs -/

/-- An unconfirmed queue item that expires at time 5. -/
def QueueItemInput.sample : QueueItemInput :=
  { payload := [1], confirmed := false, expiry := some 5 }

/-- ABP parameters for address 7. -/
def ActivateParams.sample : ActivateParams :=
  ActivateParams.abp
    { devAddr := 7, keys := { nwkSKeys := [1], appSKey := 2 },
      macVersion := some MacVersion.v1_0, fCntUp := none, fCntDown := none }

/-- OTAA parameters with join nonce 3 for JoinEUI 2. -/
def ActivateParams.otaaSample : ActivateParams :=
  ActivateParams.otaa
    { joinEUI := 2, devNonce := 1, joinNonce := 3, macVersion := some MacVersion.v1_0,
      fCntUp := none, fCntDown := none }

/-- The state with nothing stored, at time zero. -/
def State.empty : State :=
  { now := 0, devices := fun _ => none, keys := fun _ => none, sessions := [],
    nonces := fun _ _ => [], queue := fun _ => [], nextSeq := fun _ => 0 }

/-- The empty state with one device in the registry. -/
def State.oneDevice (d : DevEUI) (skip : Bool) : State :=
  { State.empty with
    devices := upd State.empty.devices d
      (some { profile := 0, enabled := true, lastSeen := none, skipNonceValidation := skip }) }

/-- A device record with the skip-validation flag unset. -/
def Device.sample : Device :=
  { profile := 0, enabled := true, lastSeen := none, skipNonceValidation := false }

/-- An environment whose key derivation returns fixed keys. -/
def Env.sample : Env :=
  { deriveSession := fun _ _ _ _ _ => some { nwkSKeys := [1], appSKey := 2 }
    otaaDevAddr := fun d => d
    paramsValid := fun _ => true
    flushOnActivate := false }

/-- Device 1 with an ABP session and two queued items, an unconfirmed and a confirmed one. -/
def State.sample : State :=
  run Env.sample (State.oneDevice 1 false)
    [Op.activate 1 ActivateParams.sample, Op.enqueue 1 QueueItemInput.sample,
     Op.enqueue 1 { payload := [2], confirmed := true, expiry := none }]

end Core

/-! # Part 3: theorems about the generated glue
-/

namespace Api

variable {W : Type}

/-! ## The embedded functions have the common shape -/

theorem handler_eq_generic (op : Operation) :
    (op.handler : ServerValue W → Context → Decoder W → Option (UnaryServerInterceptor W) →
      Run W → HResult × Run W) = genericHandler op := by
  cases op <;> rfl

theorem client_eq_generic (op : Operation) (c : deviceServiceClient W) :
    c.method op = genericClient op c := by
  cases op <;> rfl

/-! ## Traces -/

theorem run_continuation_calls (op : Operation) (s : DeviceServiceServer W)
    (strat : Strategy W) (calls : List Call) :
    (Strategy.run (op.continuation (ServerValue.impl s)) strat calls).2.calls =
      calls ++ (Strategy.requests (op.continuation (ServerValue.impl s)) strat calls).filterMap
        op.served := by
  induction strat generalizing calls with
  | ret res w => simp [Strategy.run, Strategy.requests]
  | call ctx req w k ih =>
    simp only [Strategy.run, Strategy.requests]
    rw [ih]
    cases req with
    | none => simp [Operation.continuation, Operation.served]
    | some a =>
      by_cases h : a.ty = op.requestType
      · simp [Operation.continuation, Operation.served, h, ServerValue.serve]
      · simp [Operation.continuation, Operation.served, h]

theorem served_isServe (op : Operation) (l : List (Context × Option Any)) :
    (l.filterMap op.served).countP Call.isServe = (l.filterMap op.served).length := by
  rw [List.countP_eq_length]
  intro c hc
  rw [List.mem_filterMap] at hc
  obtain ⟨⟨ctx, req⟩, _, h⟩ := hc
  cases req with
  | none => simp [Operation.served] at h
  | some a =>
    simp only [Operation.served] at h
    split at h
    · cases h; rfl
    · cases h

theorem served_not_isDecode (op : Operation) (l : List (Context × Option Any)) :
    (l.filterMap op.served).countP Call.isDecode = 0 := by
  rw [List.countP_eq_zero]
  intro c hc
  rw [List.mem_filterMap] at hc
  obtain ⟨⟨ctx, req⟩, _, h⟩ := hc
  cases req with
  | none => simp [Operation.served] at h
  | some a =>
    simp only [Operation.served] at h
    split at h
    · cases h; simp [Call.isDecode]
    · cases h

theorem client_calls (op : Operation) (c : deviceServiceClient W) (ctx : Context)
    (req : Ptr) (opts : CallOptions) (r : Run W) :
    (c.method op ctx req opts r).2.calls =
      r.calls ++ [Call.invoke op.path (op.args req) op.reply opts] := by
  rw [client_eq_generic]
  simp only [genericClient, ClientConnInterface.invoke]
  split <;> rfl

theorem handler_calls_nil (op : Operation) (s : DeviceServiceServer W) (ctx : Context)
    (dec : Decoder W) (r : Run W) :
    (op.handler (ServerValue.impl s) ctx dec none r).2.calls =
      r.calls ++ Call.decode op.fresh ::
        (match (dec op.fresh r.world).1.1 with
          | some _ => []
          | none => [Call.serve op.name ctx (some (dec op.fresh r.world).1.2)]) := by
  rw [handler_eq_generic]
  simp only [genericHandler, decode]
  split <;> rename_i h <;> simp [h, ServerValue.serve]

theorem handler_calls_icp (op : Operation) (s : DeviceServiceServer W) (ctx : Context)
    (dec : Decoder W) (icp : UnaryServerInterceptor W) (r : Run W) :
    (op.handler (ServerValue.impl s) ctx dec (some icp) r).2.calls =
      r.calls ++ Call.decode op.fresh ::
        (match (dec op.fresh r.world).1.1 with
          | some _ => []
          | none => Call.intercept op.path ctx (op.filled (dec op.fresh r.world).1.2) ::
              (continuationCalls op (ServerValue.impl s) ctx dec icp r).filterMap op.served) := by
  rw [handler_eq_generic]
  simp only [genericHandler, decode, continuationCalls]
  split <;> rename_i h
  · simp [h]
  · simp [h, intercept, run_continuation_calls, Operation.info]

/-! ## The claims about the glue -/

/-- Claim C1.  The method list of `DeviceService_ServiceDesc` has 19 entries whose names are,
in order, Create, Get, Update, Delete, List, CreateKeys, GetKeys, UpdateKeys, DeleteKeys,
FlushDevNonces, Activate, Deactivate, GetActivation, GetRandomDevAddr, GetMetrics,
GetLinkMetrics, Enqueue, FlushQueue, GetQueue; the names are pairwise distinct, they are the
methods of the interface `DeviceServiceServer`, they are exactly the operations the spec
names for the service boundary, and the stream list is empty. -/
theorem serviceDesc_lists_the_nineteen_operations (W : Type) :
    (DeviceService_ServiceDesc W).Methods.map MethodDesc.MethodName =
      ["Create", "Get", "Update", "Delete", "List", "CreateKeys", "GetKeys", "UpdateKeys",
       "DeleteKeys", "FlushDevNonces", "Activate", "Deactivate", "GetActivation",
       "GetRandomDevAddr", "GetMetrics", "GetLinkMetrics", "Enqueue", "FlushQueue", "GetQueue"]
    ∧ (DeviceService_ServiceDesc W).Methods.length = 19
    ∧ ((DeviceService_ServiceDesc W).Methods.map MethodDesc.MethodName).Nodup
    ∧ (DeviceService_ServiceDesc W).Methods.map MethodDesc.MethodName =
        allOperations.map Operation.name
    ∧ (∀ n, n ∈ (DeviceService_ServiceDesc W).Methods.map MethodDesc.MethodName ↔
        n ∈ specOperations)
    ∧ (DeviceService_ServiceDesc W).Streams = [] := by
  refine ⟨rfl, rfl, ?_, rfl, ?_, rfl⟩
  · simp only [DeviceService_ServiceDesc, List.map]
    decide
  · intro n
    simp only [DeviceService_ServiceDesc, List.map, specOperations]
    simp only [List.mem_cons, List.mem_append, List.mem_singleton, List.not_mem_nil, or_false]
    tauto

/-- Claim C2 as stated fails: a struct that embeds `*UnimplementedDeviceServiceServer` and
leaves the pointer nil has the whole method set, declares Activate itself here, and panics on
an operation it does not declare (GetActivation) where the claim has it answer. -/
theorem nil_embedded_pointer_panics :
    Implementer.call
        { embedded := EmbeddedField.nilPointer,
          own := fun op =>
            if op = Operation.Activate then some (fun _ _ w => ((some [], none), w)) else none }
        Operation.GetActivation 0 (some [1]) () = Outcome.panic
    ∧ Implementer.call
        { embedded := EmbeddedField.nilPointer,
          own := fun op =>
            if op = Operation.Activate then some (fun _ _ w => ((some [], none), w)) else none }
        Operation.Activate 0 (some [1]) () = Outcome.returned ((some [], none), ()) := by
  constructor <;> rfl

/-- Claim C2, amended.  For each of the 19 operations M and every context, request and world,
`UnimplementedDeviceServiceServer.M` returns a nil response and the status error with code
Unimplemented and message "method M not implemented", and changes nothing.  A struct that
embeds it by value, or through a pointer that is set, answers every operation it does not
declare itself in that way, and every operation it declares with its own method, whatever it
embeds; a struct that embeds a nil pointer panics on every operation it does not declare. -/
theorem unimplemented_answers_every_operation (op : Operation) (ctx : Context) (req : Ptr)
    (w : W) :
    (UnimplementedDeviceServiceServer W).method op ctx req w =
      ((none, some (Error.status Code.Unimplemented
        ("method " ++ op.name ++ " not implemented"))), w)
    ∧ (∀ s : Implementer W, s.own op = none → s.embedded ≠ EmbeddedField.nilPointer →
        s.call op ctx req w =
          Outcome.returned ((none, some (Error.status Code.Unimplemented
            ("method " ++ op.name ++ " not implemented"))), w))
    ∧ (∀ (s : Implementer W) (f : Context → Ptr → W → (Ptr × Option Error) × W),
        s.own op = some f → s.call op ctx req w = Outcome.returned (f ctx req w))
    ∧ (∀ s : Implementer W, s.own op = none → s.embedded = EmbeddedField.nilPointer →
        s.call op ctx req w = Outcome.panic) := by
  have h1 : (UnimplementedDeviceServiceServer W).method op ctx req w =
      ((none, some (Error.status Code.Unimplemented
        ("method " ++ op.name ++ " not implemented"))), w) := by
    cases op <;> rfl
  refine ⟨h1, ?_, ?_, ?_⟩
  · intro s hown hemb
    cases he : s.embedded with
    | nilPointer => exact absurd he hemb
    | value => simp only [Implementer.call, hown, he, h1]
    | pointer => simp only [Implementer.call, hown, he, h1]
  · intro s f hown
    simp only [Implementer.call, hown]
  · intro s hown hemb
    simp only [Implementer.call, hown, hemb]

/-- The amended claim C2 at a concrete input: a struct that embeds the default server by value
and declares only Activate answers GetActivation with the Unimplemented error that names it. -/
theorem unimplemented_answers_witness :
    Implementer.call
        { embedded := EmbeddedField.value,
          own := fun op =>
            if op = Operation.Activate then some (fun _ _ w => ((some [], none), w)) else none }
        Operation.GetActivation 0 (some [1]) () =
      Outcome.returned ((none, some (Error.status Code.Unimplemented
        "method GetActivation not implemented")), ()) :=
  (unimplemented_answers_every_operation Operation.GetActivation 0 (some [1]) ()).2.1
    { embedded := EmbeddedField.value,
      own := fun op =>
        if op = Operation.Activate then some (fun _ _ w => ((some [], none), w)) else none }
    rfl (by decide)

/-- Claim C3.  For each of the 19 client methods and every request: when the `Invoke` of the
underlying connection returns a non-nil error `e`, the method returns a nil response and
exactly `e`; when `Invoke` returns nil, the method returns a nil error and the non-nil
response whose contents are what `Invoke` wrote.  In both cases the world is the one `Invoke`
left. -/
theorem client_returns_the_error_of_invoke (op : Operation) (c : deviceServiceClient W)
    (ctx : Context) (req : Ptr) (opts : CallOptions) (r : Run W) :
    (∀ e body w,
        c.cc.Invoke ctx op.path (op.args req) op.reply opts r.world = ((some e, body), w) →
        (c.method op ctx req opts r).1 = (none, some e) ∧
          (c.method op ctx req opts r).2.world = w)
    ∧ (∀ body w,
        c.cc.Invoke ctx op.path (op.args req) op.reply opts r.world = ((none, body), w) →
        (c.method op ctx req opts r).1 = (some body, none) ∧
          (c.method op ctx req opts r).2.world = w) := by
  rw [client_eq_generic]
  constructor
  · intro e body w h
    simp [genericClient, ClientConnInterface.invoke, h]
  · intro body w h
    simp [genericClient, ClientConnInterface.invoke, h]

/-- The claim C3 at concrete inputs: over a connection whose `Invoke` fails with NotFound,
`GetActivation` returns nil and that error; over one whose `Invoke` succeeds and writes `[7]`,
it returns the response `[7]` and a nil error. -/
theorem client_returns_the_error_witness :
    ((NewDeviceServiceClient (failingConn (Error.status Code.NotFound "no such device"))).method
        Operation.GetActivation 0 (some [1]) [] { world := (), calls := [] }).1 =
      (none, some (Error.status Code.NotFound "no such device"))
    ∧ ((NewDeviceServiceClient (answeringConn [7])).method
        Operation.GetActivation 0 (some [1]) [] { world := (), calls := [] }).1 =
      (some [7], none) :=
  ⟨((client_returns_the_error_of_invoke Operation.GetActivation
      (NewDeviceServiceClient (failingConn (Error.status Code.NotFound "no such device")))
      0 (some [1]) [] { world := (), calls := [] }).1 _ _ _ rfl).1,
   ((client_returns_the_error_of_invoke Operation.GetActivation
      (NewDeviceServiceClient (answeringConn [7]))
      0 (some [1]) [] { world := (), calls := [] }).2 _ _ rfl).1⟩

/-- Claim C4 as stated fails: with the interceptor that calls its continuation twice, one call
of the handler of Create invokes the server method `Create` twice, not at most once. -/
theorem interceptor_can_run_the_method_twice :
    ((DeviceService_Create_Handler (ServerValue.impl (UnimplementedDeviceServiceServer Unit)) 0
        (decodeOk [1]) (some callTwice) { world := (), calls := [] }).2.calls
      = [Call.decode { ty := MsgType.CreateDeviceRequest, ptr := some [] },
         Call.intercept "/api.DeviceService/Create" 0
           { ty := MsgType.CreateDeviceRequest, ptr := some [1] },
         Call.serve "Create" 0 (some [1]),
         Call.serve "Create" 0 (some [1])])
    ∧ ¬ ((DeviceService_Create_Handler
        (ServerValue.impl (UnimplementedDeviceServiceServer Unit)) 0
        (decodeOk [1]) (some callTwice) { world := (), calls := [] }).2.calls.countP
          Call.isServe ≤ 1) := by
  constructor
  · rfl
  · decide

/-- Claim C4, amended.  One call of a client method adds exactly one call to the trace, the
`Invoke` with the path of that method, whether it succeeds or fails.  One call of a handler
invokes the decoder exactly once.  With a nil interceptor it invokes the server method at most
once: once when decoding succeeds, not at all when it fails.  With an interceptor it invokes
the server method once for every call the interceptor makes to its continuation with a request
of the type of the operation, and not at all when decoding fails. -/
theorem calls_made_by_one_call (op : Operation) (ctx : Context) (r : Run W) :
    (∀ (c : deviceServiceClient W) (req : Ptr) (opts : CallOptions),
      (c.method op ctx req opts r).2.calls =
          r.calls ++ [Call.invoke op.path (op.args req) op.reply opts]
        ∧ (c.method op ctx req opts r).2.calls.countP Call.isInvoke =
          r.calls.countP Call.isInvoke + 1)
    ∧ (∀ (srv : DeviceServiceServer W) (dec : Decoder W)
        (interceptor : Option (UnaryServerInterceptor W)),
      (op.handler (ServerValue.impl srv) ctx dec interceptor r).2.calls.countP Call.isDecode =
        r.calls.countP Call.isDecode + 1)
    ∧ (∀ (srv : DeviceServiceServer W) (dec : Decoder W),
      (op.handler (ServerValue.impl srv) ctx dec none r).2.calls.countP Call.isServe =
        r.calls.countP Call.isServe + (if (dec op.fresh r.world).1.1 = none then 1 else 0))
    ∧ (∀ (srv : DeviceServiceServer W) (dec : Decoder W) (icp : UnaryServerInterceptor W),
      (op.handler (ServerValue.impl srv) ctx dec (some icp) r).2.calls.countP Call.isServe =
        r.calls.countP Call.isServe +
          ((continuationCalls op (ServerValue.impl srv) ctx dec icp r).filterMap
            op.served).length) := by
  refine ⟨?_, ?_, ?_, ?_⟩
  · intro c req opts
    rw [client_calls]
    simp [List.countP_append, Call.isInvoke]
  · intro srv dec interceptor
    cases interceptor with
    | none =>
      rw [handler_calls_nil]
      split <;> simp [List.countP_append, List.countP_cons, Call.isDecode]
    | some icp =>
      rw [handler_calls_icp]
      split <;>
        simp [List.countP_append, List.countP_cons, Call.isDecode, served_not_isDecode]
  · intro srv dec
    rw [handler_calls_nil]
    split <;> rename_i h <;> simp [List.countP_append, List.countP_cons, Call.isServe, h]
  · intro srv dec icp
    rw [handler_calls_icp]
    split <;> rename_i h
    · simp [List.countP_append, List.countP_cons, Call.isServe, continuationCalls, decode, h]
    · simp [List.countP_append, List.countP_cons, Call.isServe, served_isServe]

/-! ## Dispatch, routing and interceptors -/

theorem desc_methods_eq (W : Type) :
    (DeviceService_ServiceDesc W).Methods =
      allOperations.map (fun op => { MethodName := op.name, Handler := op.handler }) := rfl

theorem mem_allOperations (op : Operation) : op ∈ allOperations := by
  cases op <;> simp [allOperations]

theorem name_injective (op op2 : Operation) (h : op.name = op2.name) : op = op2 := by
  cases op <;> cases op2 <;> first | rfl | (exact absurd h (by decide))

theorem path_injective (op op2 : Operation) (h : op.path = op2.path) : op = op2 := by
  cases op <;> cases op2 <;> first | rfl | (exact absurd h (by decide))

theorem served_not_isIntercept (op : Operation) (l : List (Context × Option Any)) :
    (l.filterMap op.served).countP Call.isIntercept = 0 := by
  rw [List.countP_eq_zero]
  intro c hc
  rw [List.mem_filterMap] at hc
  obtain ⟨⟨ctx, req⟩, _, h⟩ := hc
  cases req with
  | none => simp [Operation.served] at h
  | some a =>
    simp only [Operation.served] at h
    split at h
    · cases h; simp [Call.isIntercept]
    · cases h

/-- A handler whose decoder fails returns the error of the decoder at once. -/
theorem handler_decode_error (op : Operation) (srv : ServerValue W) (ctx : Context)
    (dec : Decoder W) (interceptor : Option (UnaryServerInterceptor W)) (r : Run W)
    (e : Error) (body : Body) (w : W) (h : dec op.fresh r.world = ((some e, body), w)) :
    op.handler srv ctx dec interceptor r =
      (HResult.ret none (some e), { world := w, calls := r.calls ++ [Call.decode op.fresh] }) := by
  rw [handler_eq_generic]
  simp [genericHandler, decode, h]

/-- A handler without interceptor whose decoder succeeds is the call of the server method. -/
theorem handler_nil_ok (op : Operation) (srv : ServerValue W) (ctx : Context)
    (dec : Decoder W) (r : Run W) (body : Body) (w : W)
    (h : dec op.fresh r.world = ((none, body), w)) :
    op.handler srv ctx dec none r =
      srv.serve op.name op.responseType (fun s => s.method op) ctx (some body)
        { world := w, calls := r.calls ++ [Call.decode op.fresh] } := by
  rw [handler_eq_generic]
  simp [genericHandler, decode, h]

/-- A handler with an interceptor whose decoder succeeds is the run of the interceptor. -/
theorem handler_icp_ok (op : Operation) (srv : ServerValue W) (ctx : Context)
    (dec : Decoder W) (icp : UnaryServerInterceptor W) (r : Run W) (body : Body) (w : W)
    (h : dec op.fresh r.world = ((none, body), w)) :
    op.handler srv ctx dec (some icp) r =
      Strategy.run (op.continuation srv)
        (icp ctx (op.filled body) { Server := srv, FullMethod := op.path } w)
        (r.calls ++ [Call.decode op.fresh, Call.intercept op.path ctx (op.filled body)]) := by
  rw [handler_eq_generic]
  simp [genericHandler, decode, h, intercept, Operation.info]

/-! ## The claims about dispatch, routing and interceptors -/

/-- Claim C12.  Every entry of `DeviceService_ServiceDesc.Methods` carries the name of exactly
one operation M, and for every server, context and decoder that succeeds, its Handler called
with a nil interceptor returns the response and the error of `srv.M(ctx, in)`, `in` being the
request the decoder filled, having called the decoder and then that method and nothing else;
on `UnimplementedDeviceServiceServer` it returns the Unimplemented error whose message names
M. -/
theorem entry_dispatches_to_its_method (W : Type) (e : MethodDesc W)
    (he : e ∈ (DeviceService_ServiceDesc W).Methods) :
    ∃ op : Operation, e.MethodName = op.name
      ∧ (∀ op2 : Operation, e.MethodName = op2.name → op2 = op)
      ∧ (∀ (srv : DeviceServiceServer W) (ctx : Context) (dec : Decoder W) (r : Run W)
          (body : Body) (w : W), dec op.fresh r.world = ((none, body), w) →
          e.Handler (ServerValue.impl srv) ctx dec none r =
            (HResult.ret
                (some { ty := op.responseType, ptr := (srv.method op ctx (some body) w).1.1 })
                (srv.method op ctx (some body) w).1.2,
              { world := (srv.method op ctx (some body) w).2,
                calls := r.calls ++ [Call.decode op.fresh, Call.serve op.name ctx (some body)] }))
      ∧ (∀ (ctx : Context) (dec : Decoder W) (r : Run W) (body : Body) (w : W),
          dec op.fresh r.world = ((none, body), w) →
          (e.Handler (ServerValue.impl (UnimplementedDeviceServiceServer W)) ctx dec none r).1 =
            HResult.ret (some { ty := op.responseType, ptr := none })
              (some (Error.status Code.Unimplemented
                ("method " ++ e.MethodName ++ " not implemented")))) := by
  rw [desc_methods_eq, List.mem_map] at he
  obtain ⟨op, _, rfl⟩ := he
  refine ⟨op, rfl, fun op2 h => name_injective op2 op h.symm, ?_, ?_⟩
  · intro srv ctx dec r body w h
    simp only [handler_nil_ok op _ ctx dec r body w h, ServerValue.serve, List.append_assoc,
      List.singleton_append]
  · intro ctx dec r body w h
    simp only [handler_nil_ok op _ ctx dec r body w h, ServerValue.serve]
    cases op <;> rfl

/-- The claim C12 at a concrete input: the entry named Activate is in the descriptor, and its
handler, on the default server with a decoder that succeeds and no interceptor, returns the
Unimplemented error that names Activate. -/
theorem entry_dispatches_witness :
    ({ MethodName := "Activate", Handler := DeviceService_Activate_Handler } : MethodDesc Unit)
        ∈ (DeviceService_ServiceDesc Unit).Methods
    ∧ (DeviceService_Activate_Handler
          (ServerValue.impl (UnimplementedDeviceServiceServer Unit)) 0 (decodeOk [1]) none
          { world := (), calls := [] }).1 =
        HResult.ret (some { ty := MsgType.Empty, ptr := none })
          (some (Error.status Code.Unimplemented "method Activate not implemented")) := by
  have hmem : ({ MethodName := "Activate", Handler := DeviceService_Activate_Handler } :
      MethodDesc Unit) ∈ (DeviceService_ServiceDesc Unit).Methods := by
    simp [DeviceService_ServiceDesc]
  obtain ⟨op, h1, _, _, h4⟩ := entry_dispatches_to_its_method Unit _ hmem
  have hop : op = Operation.Activate := name_injective _ _ h1.symm
  subst hop
  exact ⟨hmem, h4 0 (decodeOk [1]) { world := (), calls := [] } [1] () rfl⟩

/-- Claim C13.  For each of the 19 operations M, the path that the client method passes to
`Invoke` is "/" + ServiceName + "/" + M, that is "/api.DeviceService/M" (in the trace of
every connection, and as reported back by a connection that returns the path it was given);
M is the MethodName of a descriptor entry, and the info that entry's handler passes to an
interceptor has that same string as FullMethod (for every interceptor, and as reported back
by an interceptor that returns the FullMethod it was told); the 19 paths are pairwise
distinct. -/
theorem client_and_server_agree_on_routing (W : Type) (op : Operation) :
    op.path = "/" ++ (DeviceService_ServiceDesc W).ServiceName ++ "/" ++ op.name
    ∧ (∀ (c : deviceServiceClient W) (ctx : Context) (req : Ptr) (opts : CallOptions)
        (r : Run W),
        (c.method op ctx req opts r).2.calls = r.calls ++
          [Call.invoke ("/" ++ (DeviceService_ServiceDesc W).ServiceName ++ "/" ++ op.name)
            (op.args req) op.reply opts])
    ∧ (∀ (ctx : Context) (req : Ptr) (opts : CallOptions) (r : Run W),
        ((NewDeviceServiceClient reportingConn).method op ctx req opts r).1 =
          (none, some (Error.other
            ("/" ++ (DeviceService_ServiceDesc W).ServiceName ++ "/" ++ op.name))))
    ∧ (∃ e ∈ (DeviceService_ServiceDesc W).Methods, e.MethodName = op.name
        ∧ (∀ (srv : ServerValue W) (ctx : Context) (dec : Decoder W)
            (icp : UnaryServerInterceptor W) (r : Run W) (body : Body) (w : W),
            dec op.fresh r.world = ((none, body), w) →
            e.Handler srv ctx dec (some icp) r =
              Strategy.run (op.continuation srv)
                (icp ctx (op.filled body)
                  { Server := srv,
                    FullMethod :=
                      "/" ++ (DeviceService_ServiceDesc W).ServiceName ++ "/" ++ op.name } w)
                (r.calls ++ [Call.decode op.fresh,
                  Call.intercept
                    ("/" ++ (DeviceService_ServiceDesc W).ServiceName ++ "/" ++ op.name)
                    ctx (op.filled body)]))
        ∧ (∀ (srv : ServerValue W) (ctx : Context) (dec : Decoder W) (r : Run W) (body : Body)
            (w : W), dec op.fresh r.world = ((none, body), w) →
            (e.Handler srv ctx dec (some reportMethod) r).1 =
              HResult.ret none (some (Error.other
                ("/" ++ (DeviceService_ServiceDesc W).ServiceName ++ "/" ++ op.name)))))
    ∧ (∀ op2 : Operation, op.path = op2.path → op = op2)
    ∧ (allOperations.map Operation.path).Nodup := by
  have hpath : op.path = "/" ++ (DeviceService_ServiceDesc W).ServiceName ++ "/" ++ op.name := by
    cases op <;> rfl
  refine ⟨hpath, ?_, ?_, ?_, fun op2 h => path_injective op op2 h, by decide⟩
  · intro c ctx req opts r
    rw [client_calls, hpath]
  · intro ctx req opts r
    rw [client_eq_generic, ← hpath]
    rfl
  · refine ⟨{ MethodName := op.name, Handler := op.handler }, ?_, rfl, ?_, ?_⟩
    · rw [desc_methods_eq, List.mem_map]
      exact ⟨op, mem_allOperations op, rfl⟩
    · intro srv ctx dec icp r body w h
      rw [← hpath]
      exact handler_icp_ok op srv ctx dec icp r body w h
    · intro srv ctx dec r body w h
      rw [← hpath]
      simp only [handler_icp_ok op srv ctx dec reportMethod r body w h, reportMethod,
        Strategy.run]

/-- Claim C14.  For each of the 19 handlers, every server value and every interceptor, nil or
not: if the decoder returns a non-nil error `e`, the handler returns a nil response and
exactly `e`, the world is as the decoder left it, and the only call made is the call of the
decoder: neither the server method nor the interceptor is invoked. -/
theorem decode_error_never_reaches_the_service (op : Operation) (srv : ServerValue W)
    (ctx : Context) (dec : Decoder W) (interceptor : Option (UnaryServerInterceptor W))
    (r : Run W) (e : Error) (body : Body) (w : W)
    (h : dec op.fresh r.world = ((some e, body), w)) :
    op.handler srv ctx dec interceptor r =
      (HResult.ret none (some e), { world := w, calls := r.calls ++ [Call.decode op.fresh] })
    ∧ (op.handler srv ctx dec interceptor r).2.calls.countP Call.isServe =
        r.calls.countP Call.isServe
    ∧ (op.handler srv ctx dec interceptor r).2.calls.countP Call.isIntercept =
        r.calls.countP Call.isIntercept := by
  rw [handler_decode_error op srv ctx dec interceptor r e body w h]
  simp [List.countP_append, Call.isServe, Call.isIntercept]

/-- The claim C14 at a concrete input: the handler of Activate with a failing decoder and an
interceptor that would call the server method twice returns the decoder's error after the one
call of the decoder. -/
theorem decode_error_witness :
    DeviceService_Activate_Handler (ServerValue.impl (UnimplementedDeviceServiceServer Unit)) 0
        (decodeFail (Error.other "bad frame")) (some callTwice) { world := (), calls := [] } =
      (HResult.ret none (some (Error.other "bad frame")),
        { world := (),
          calls := [Call.decode { ty := MsgType.ActivateDeviceRequest, ptr := some [] }] }) :=
  (decode_error_never_reaches_the_service Operation.Activate
    (ServerValue.impl (UnimplementedDeviceServiceServer Unit)) 0
    (decodeFail (Error.other "bad frame")) (some callTwice) { world := (), calls := [] }
    (Error.other "bad frame") [] () rfl).1

/-- Claim C15 as stated fails in its last clause: an interceptor that never calls the
continuation does not prevent the server method from running, because the handler hands it the
server in `info.Server`.  With the interceptor that calls `info.Server`'s `Create` itself, one
call of the handler of Create makes no continuation call, and yet `Create` of the counting
server has run once: the world goes from 0 to 1 and the handler returns what `Create`
returned. -/
theorem interceptor_can_call_the_server_itself :
    continuationCalls Operation.Create (ServerValue.impl countingServer) 0 (decodeOk [1])
        callsServerItself { world := 0, calls := [] } = []
    ∧ DeviceService_Create_Handler (ServerValue.impl countingServer) 0 (decodeOk [1])
        (some callsServerItself) { world := 0, calls := [] } =
      (HResult.ret (some { ty := MsgType.Empty, ptr := some [] }) none,
        { world := 1,
          calls := [Call.decode { ty := MsgType.CreateDeviceRequest, ptr := some [] },
            Call.intercept "/api.DeviceService/Create" 0
              { ty := MsgType.CreateDeviceRequest, ptr := some [1] }] })
    ∧ (countingServer.Create 0 (some [1]) 0).2 = 1 := by
  refine ⟨rfl, rfl, rfl⟩

/-- Claim C15, amended.  With a non-nil interceptor and a decoder that succeeds, the handler
of operation M is the run of the interceptor on the context, the decoded request and the info
with Server `srv` and FullMethod "/api.DeviceService/M", against a continuation that on
`(ctx1, req)`, `req` a request of the type of M, returns `srv.M(ctx1, req)`; the interceptor is
called exactly once and the result of the handler is the result of the interceptor.  The
handler itself calls the server method only through that continuation, once per continuation
call with a request of the type of M: when the interceptor returns without calling the
continuation, the handler returns the interceptor's result and the world is the one the
interceptor left, whatever the interceptor did to it with the server it was given. -/
theorem handler_result_is_the_interceptors (op : Operation) (srv : DeviceServiceServer W)
    (ctx : Context) (dec : Decoder W) (icp : UnaryServerInterceptor W) (r : Run W)
    (body : Body) (w : W) (h : dec op.fresh r.world = ((none, body), w)) :
    op.handler (ServerValue.impl srv) ctx dec (some icp) r =
      Strategy.run (op.continuation (ServerValue.impl srv))
        (icp ctx { ty := op.requestType, ptr := some body }
          { Server := ServerValue.impl srv, FullMethod := "/api.DeviceService/" ++ op.name } w)
        (r.calls ++ [Call.decode op.fresh,
          Call.intercept ("/api.DeviceService/" ++ op.name) ctx
            { ty := op.requestType, ptr := some body }])
    ∧ (∀ (ctx1 : Context) (p : Ptr) (r1 : Run W),
        op.continuation (ServerValue.impl srv) ctx1 (some { ty := op.requestType, ptr := p }) r1 =
          (HResult.ret (some { ty := op.responseType, ptr := (srv.method op ctx1 p r1.world).1.1 })
              (srv.method op ctx1 p r1.world).1.2,
            { world := (srv.method op ctx1 p r1.world).2,
              calls := r1.calls ++ [Call.serve op.name ctx1 p] }))
    ∧ (op.handler (ServerValue.impl srv) ctx dec (some icp) r).2.calls.countP Call.isIntercept =
        r.calls.countP Call.isIntercept + 1
    ∧ (∀ (res : HResult) (w2 : W),
        icp ctx { ty := op.requestType, ptr := some body }
          { Server := ServerValue.impl srv, FullMethod := "/api.DeviceService/" ++ op.name } w =
            Strategy.ret res w2 →
        op.handler (ServerValue.impl srv) ctx dec (some icp) r =
          (res, { world := w2, calls := r.calls ++ [Call.decode op.fresh,
            Call.intercept ("/api.DeviceService/" ++ op.name) ctx
              { ty := op.requestType, ptr := some body }] }))
    ∧ (op.handler (ServerValue.impl srv) ctx dec (some icp) r).2.calls =
        r.calls ++ Call.decode op.fresh ::
          Call.intercept ("/api.DeviceService/" ++ op.name) ctx
            { ty := op.requestType, ptr := some body } ::
          (continuationCalls op (ServerValue.impl srv) ctx dec icp r).filterMap op.served := by
  have hrun := handler_icp_ok op (ServerValue.impl srv) ctx dec icp r body w h
  simp only [Operation.path, Operation.filled] at hrun
  refine ⟨hrun, ?_, ?_, ?_, ?_⟩
  · intro ctx1 p r1
    simp [Operation.continuation, ServerValue.serve]
  · rw [handler_calls_icp]
    simp [h, List.countP_append, List.countP_cons, Call.isIntercept, served_not_isIntercept]
  · intro res w2 hret
    rw [hrun, hret]
    rfl
  · rw [handler_calls_icp]
    simp [h, Operation.path, Operation.filled]

/-- The amended claim C15 at a concrete input: the handler of Enqueue with an interceptor that
returns the FullMethod it was told, without calling the continuation, returns that
interceptor's result, and the trace holds the decoder call and the interceptor call only. -/
theorem handler_result_witness :
    DeviceService_Enqueue_Handler (ServerValue.impl (UnimplementedDeviceServiceServer Unit)) 0
        (decodeOk [1]) (some reportMethod) { world := (), calls := [] } =
      (HResult.ret none (some (Error.other "/api.DeviceService/Enqueue")),
        { world := (),
          calls := [Call.decode { ty := MsgType.EnqueueDeviceQueueItemRequest, ptr := some [] },
            Call.intercept "/api.DeviceService/Enqueue" 0
              { ty := MsgType.EnqueueDeviceQueueItemRequest, ptr := some [1] }] }) :=
  (handler_result_is_the_interceptors Operation.Enqueue (UnimplementedDeviceServiceServer Unit) 0
    (decodeOk [1]) reportMethod { world := (), calls := [] } [1] () rfl).2.2.2.1 _ _ rfl

/-- Claim C16.  For each of the 19 handlers and every server value, context, decoder and
starting state, the handler called with the interceptor that returns `handler(ctx, req)`
unchanged returns the same response and error and leaves the same world as the handler called
with a nil interceptor, and makes the same calls of the server method (same method, context
and request): the two traces differ only by the call of the interceptor. -/
theorem passThrough_is_no_interceptor (op : Operation) (srv : ServerValue W) (ctx : Context)
    (dec : Decoder W) (r : Run W) :
    (op.handler srv ctx dec (some passThrough) r).1 = (op.handler srv ctx dec none r).1
    ∧ (op.handler srv ctx dec (some passThrough) r).2.world =
        (op.handler srv ctx dec none r).2.world
    ∧ (op.handler srv ctx dec (some passThrough) r).2.calls.filter Call.isServe =
        (op.handler srv ctx dec none r).2.calls.filter Call.isServe
    ∧ (op.handler srv ctx dec (some passThrough) r).2.calls.filter (fun c => !c.isIntercept) =
        (op.handler srv ctx dec none r).2.calls.filter (fun c => !c.isIntercept) := by
  rcases hd : dec op.fresh r.world with ⟨⟨err, body⟩, w⟩
  cases err with
  | some e =>
    rw [handler_decode_error op srv ctx dec _ r e body w hd,
      handler_decode_error op srv ctx dec _ r e body w hd]
    exact ⟨rfl, rfl, rfl, rfl⟩
  | none =>
    rw [handler_icp_ok op srv ctx dec _ r body w hd, handler_nil_ok op srv ctx dec r body w hd]
    cases srv with
    | foreign tag =>
      simp [passThrough, Strategy.run, Operation.continuation, Operation.filled,
        ServerValue.serve, List.filter_append, Call.isServe, Call.isIntercept]
    | impl s =>
      simp [passThrough, Strategy.run, Operation.continuation, Operation.filled,
        ServerValue.serve, List.filter_append, Call.isServe, Call.isIntercept]

/-- The claim C16 at a concrete input: the handler of GetActivation on the default server
returns the Unimplemented error with and without the pass-through interceptor, after one call
of the server method in both cases. -/
theorem passThrough_witness :
    (DeviceService_GetActivation_Handler
        (ServerValue.impl (UnimplementedDeviceServiceServer Unit)) 0 (decodeOk [1])
        (some passThrough) { world := (), calls := [] }).1 =
      (DeviceService_GetActivation_Handler
        (ServerValue.impl (UnimplementedDeviceServiceServer Unit)) 0 (decodeOk [1])
        none { world := (), calls := [] }).1
    ∧ (DeviceService_GetActivation_Handler
        (ServerValue.impl (UnimplementedDeviceServiceServer Unit)) 0 (decodeOk [1])
        (some passThrough) { world := (), calls := [] }).2.calls.filter Call.isServe =
      [Call.serve "GetActivation" 0 (some [1])] :=
  ⟨(passThrough_is_no_interceptor Operation.GetActivation
      (ServerValue.impl (UnimplementedDeviceServiceServer Unit)) 0 (decodeOk [1])
      { world := (), calls := [] }).1, by decide⟩

end Api

/-! # Part 4: theorems about the modelled core
-/

namespace Core

/-! ## Sessions -/

theorem lookup_put_same (l : List (DevEUI × DeviceActivation)) (d : DevEUI)
    (a : DeviceActivation) : lookupSession (putSession l d a) d = some a := by
  simp [lookupSession, putSession]

theorem lookup_drop_same (l : List (DevEUI × DeviceActivation)) (d : DevEUI) :
    lookupSession (dropSession l d) d = none := by
  simp [lookupSession, dropSession, List.find?_eq_none]

theorem lookup_drop_other (l : List (DevEUI × DeviceActivation)) (d d2 : DevEUI) (h : d ≠ d2) :
    lookupSession (dropSession l d2) d = lookupSession l d := by
  simp only [lookupSession, dropSession, List.find?_filter]
  congr 2
  funext e
  by_cases h1 : e.1 = d
  · have h2 : ¬ e.1 = d2 := fun h3 => h (h1.symm.trans h3)
    simp [h1, h2, h]
  · simp [h1]

theorem lookup_put_other (l : List (DevEUI × DeviceActivation)) (d d2 : DevEUI)
    (a : DeviceActivation) (h : d ≠ d2) :
    lookupSession (putSession l d2 a) d = lookupSession l d := by
  have h2 : ¬ d2 = d := fun h3 => h h3.symm
  have h3 := lookup_drop_other l d d2 h
  simp only [lookupSession] at h3
  simp [lookupSession, putSession, List.find?_cons, h2, h3]

theorem drop_of_none (l : List (DevEUI × DeviceActivation)) (d : DevEUI)
    (h : lookupSession l d = none) : dropSession l d = l := by
  simp only [lookupSession, Option.map_eq_none', List.find?_eq_none] at h
  simp only [dropSession, List.filter_eq_self]
  intro e he
  simpa using h e he

/-! ## What each operation leaves alone -/

theorem validate_devices (s : State) (d : DevEUI) (j : JoinEUI) (n : Nat) :
    (ValidateAndConsume s d j n).2.devices = s.devices := by
  unfold ValidateAndConsume
  split <;> rfl

theorem validate_sessions (s : State) (d : DevEUI) (j : JoinEUI) (n : Nat) :
    (ValidateAndConsume s d j n).2.sessions = s.sessions := by
  unfold ValidateAndConsume
  split <;> rfl

theorem validate_nonce_mem (s : State) (d d2 : DevEUI) (j j2 : JoinEUI) (n n2 : Nat)
    (h : n ∈ s.nonces d j) : n ∈ (ValidateAndConsume s d2 j2 n2).2.nonces d j := by
  unfold ValidateAndConsume
  split
  · exact h
  · by_cases hd : d = d2
    · subst hd
      by_cases hj : j = j2
      · subst hj
        simp [upd, List.mem_insert_iff, h]
      · simp [upd, hj, h]
    · simp [upd, hd, h]

theorem validate_records (s : State) (d : DevEUI) (j : JoinEUI) (n : Nat)
    (h : (ValidateAndConsume s d j n).1 = none) :
    n ∈ (ValidateAndConsume s d j n).2.nonces d j := by
  unfold ValidateAndConsume at h ⊢
  split
  · rename_i hc; simp [hc] at h
  · simp [upd]

/-- Activate either fails and leaves the state as it was, or succeeds and installs a session
on the state as it was or as the nonce check left it. -/
theorem activate_cases (env : Env) (s : State) (d : DevEUI) (p : ActivateParams) :
    ((Activate env s d p).1 ≠ none ∧ (Activate env s d p).2 = s) ∨
    ((Activate env s d p).1 = none ∧
      ∃ a, (Activate env s d p).2 = install env s d a ∨
        ∃ j n, (Activate env s d p).2 = install env (ValidateAndConsume s d j n).2 d a) := by
  unfold Activate
  split
  · left; simp
  · split
    · left; simp
    · split
      · split
        · left; simp
        · simp only []
          split
          · left; simp
          · split
            · left; simp
            · split
              · left; simp
              · right
                exact ⟨rfl, _, Or.inr ⟨_, _, rfl⟩⟩
      · split
        · left; simp
        · split
          · left; simp
          · right
            exact ⟨rfl, _, Or.inl rfl⟩

theorem activate_devices (env : Env) (s : State) (d : DevEUI) (p : ActivateParams) :
    (Activate env s d p).2.devices = s.devices := by
  rcases activate_cases env s d p with ⟨_, h⟩ | ⟨_, a, h | ⟨j, n, h⟩⟩
  · rw [h]
  · rw [h]; rfl
  · rw [h]; exact validate_devices s d j n

theorem activate_nonce_mem (env : Env) (s : State) (d d2 : DevEUI) (p : ActivateParams)
    (j : JoinEUI) (n : Nat) (hn : n ∈ s.nonces d j) :
    n ∈ (Activate env s d2 p).2.nonces d j := by
  rcases activate_cases env s d2 p with ⟨_, h⟩ | ⟨_, a, h | ⟨j2, n2, h⟩⟩
  · rw [h]; exact hn
  · rw [h]; exact hn
  · rw [h]; exact validate_nonce_mem s d d2 j j2 n n2 hn

theorem step_nonce_mem (env : Env) (s : State) (op : Op) (d : DevEUI) (j : JoinEUI) (n : Nat)
    (hn : n ∈ s.nonces d j) (hop : op ≠ Op.flush d) (hdel : op ≠ Op.deleteDevice d) :
    n ∈ (step env s op).nonces d j := by
  cases op with
  | tick dt => exact hn
  | createDevice d2 dev => simp only [step, CreateDevice]; split <;> exact hn
  | updateDevice d2 dev => simp only [step, UpdateDevice]; split <;> exact hn
  | deleteDevice d2 =>
    have h : d ≠ d2 := fun h => hdel (by rw [h])
    simp only [step, DeleteDevice]
    split
    · exact hn
    · simpa [upd, h] using hn
  | validateAndConsume d2 j2 n2 => exact validate_nonce_mem s d d2 j j2 n n2 hn
  | flush d2 =>
    have h : d ≠ d2 := fun h => hop (by rw [h])
    simpa [step, Flush, upd, h] using hn
  | createKeys d2 k => simp only [step, CreateKeys]; split <;> exact hn
  | updateKeys d2 k => simp only [step, UpdateKeys]; split <;> exact hn
  | deleteKeys d2 => simp only [step, DeleteKeys]; split <;> exact hn
  | activate d2 p => exact activate_nonce_mem env s d d2 p j n hn
  | deactivate d2 => exact hn
  | enqueue d2 item => simp only [step, Enqueue]; split <;> exact hn
  | flushQueue d2 => exact hn
  | nextForTransmission d2 =>
    simp only [step, NextForTransmission]
    split
    · exact hn
    · split <;> exact hn
  | acknowledge d2 c =>
    simp only [step, Acknowledge]
    split
    · exact hn
    · split <;> exact hn

theorem run_nonce_mem (env : Env) (s : State) (ops : List Op) (d : DevEUI) (j : JoinEUI)
    (n : Nat) (hn : n ∈ s.nonces d j) (hops : Op.flush d ∉ ops)
    (hdel : Op.deleteDevice d ∉ ops) :
    n ∈ (run env s ops).nonces d j := by
  induction ops generalizing s with
  | nil => exact hn
  | cons op ops ih =>
    simp only [run, List.foldl_cons] at ih ⊢
    simp only [List.mem_cons, not_or] at hops hdel
    exact ih _ (step_nonce_mem env s op d j n hn (fun h => hops.1 h.symm)
      (fun h => hdel.1 h.symm)) hops.2 hdel.2

/-- An OTAA Activate that succeeds has recorded its join nonce. -/
theorem activate_otaa_records (env : Env) (s : State) (d : DevEUI) (o : OtaaParams)
    (h : (Activate env s d (ActivateParams.otaa o)).1 = none) :
    o.joinNonce ∈ (Activate env s d (ActivateParams.otaa o)).2.nonces d o.joinEUI := by
  revert h
  unfold Activate
  split
  · intro h; simp at h
  · split
    · intro h; simp at h
    · simp only []
      split
      · intro h; simp at h
      · split
        · intro h; simp at h
        · rename_i hvc
          split
          · intro h; simp at h
          · split
            · intro h; simp at h
            · intro _
              exact validate_records s d o.joinEUI o.joinNonce hvc

/-! ## The queue -/

theorem enqueue_queue (s : State) (d : DevEUI) (dev : Device) (item : QueueItemInput)
    (hdev : s.devices d = some dev) :
    (Enqueue s d item).1 = Except.ok (s.queue d).length ∧
    (Enqueue s d item).2.queue d = s.queue d ++ [stored (s.nextSeq d) item] ∧
    (Enqueue s d item).2.nextSeq d = s.nextSeq d + 1 ∧
    (Enqueue s d item).2.now = s.now ∧
    (Enqueue s d item).2.devices = s.devices := by
  simp [Enqueue, hdev, upd]

theorem enqueueAll_queue (s : State) (d : DevEUI) (dev : Device) (items : List QueueItemInput)
    (hdev : s.devices d = some dev) :
    (enqueueAll s d items).queue d = s.queue d ++ storedFrom (s.nextSeq d) items ∧
    (enqueueAll s d items).now = s.now := by
  induction items generalizing s with
  | nil => simp [enqueueAll, storedFrom]
  | cons item items ih =>
    obtain ⟨_, hq, hn, hnow, hd⟩ := enqueue_queue s d dev item hdev
    have := ih (Enqueue s d item).2 (by rw [hd]; exact hdev)
    simp only [enqueueAll, List.foldl_cons] at this ⊢
    rw [this.1, this.2, hq, hn, hnow]
    simp [storedFrom]

theorem storedFrom_inputs (seq : Nat) (items : List QueueItemInput) :
    (storedFrom seq items).map
      (fun it => ({ payload := it.payload, confirmed := it.confirmed, expiry := it.expiry } :
        QueueItemInput)) = items := by
  induction items generalizing seq with
  | nil => rfl
  | cons item items ih => simp [storedFrom, stored, ih]

/-! ## The downlink frame counter -/

/-- NextForTransmission either returns nothing and leaves the sessions alone, or returns an
item with the counter after the last one of the session and records that counter. -/
theorem next_sessions (s : State) (d : DevEUI) :
    ((NextForTransmission s d).1 = none ∧ (NextForTransmission s d).2.sessions = s.sessions) ∨
    ∃ (act : DeviceActivation) (it : DeviceQueueItem), s.activation d = some act ∧
      (NextForTransmission s d).1 =
        some { it with fCntDown := some (act.lastFCntDown + 1), inFlight := true } ∧
      (NextForTransmission s d).2.sessions =
        putSession s.sessions d { act with lastFCntDown := act.lastFCntDown + 1 } := by
  cases hact : s.activation d with
  | none => left; simp [NextForTransmission, hact]
  | some act =>
    cases hq : GetQueue s d with
    | nil => left; simp [NextForTransmission, hact, hq]
    | cons it rest =>
      right
      exact ⟨act, it, rfl, by simp [NextForTransmission, hact, hq],
        by simp [NextForTransmission, hact, hq]⟩

theorem ack_sessions (s : State) (d : DevEUI) (c : Nat) :
    (Acknowledge s d c).sessions = s.sessions ∨
    ∃ act, s.activation d = some act ∧
      (Acknowledge s d c).sessions =
        putSession s.sessions d { act with lastFCntDown := max act.lastFCntDown c } := by
  cases hact : s.activation d with
  | none => left; simp [Acknowledge, hact]
  | some act =>
    by_cases hany : (s.queue d).any (awaitsAck c) = true
    · right
      exact ⟨act, rfl, by simp only [Acknowledge, hact, hany, if_true]⟩
    · left
      simp only [Acknowledge, hact, hany]
      rfl

/-- A lower bound on the last counter of the session of `d` survives every operation that
keeps the session. -/
theorem step_floor (env : Env) (s : State) (op : Op) (d : DevEUI) (c : Nat)
    (hJ : ∀ a, s.activation d = some a → c ≤ a.lastFCntDown)
    (hk : keepsSession env d s op = true) :
    ∀ a, (step env s op).activation d = some a → c ≤ a.lastFCntDown := by
  have same : (step env s op).sessions = s.sessions →
      ∀ a, (step env s op).activation d = some a → c ≤ a.lastFCntDown := by
    intro h a ha
    apply hJ
    simpa [State.activation, h] using ha
  cases op with
  | tick dt => exact same rfl
  | createDevice d2 dev => apply same; simp only [step, CreateDevice]; split <;> rfl
  | updateDevice d2 dev => apply same; simp only [step, UpdateDevice]; split <;> rfl
  | deleteDevice d2 =>
    cases hdev : s.devices d2 with
    | none => apply same; simp only [step, DeleteDevice, hdev]
    | some dev =>
      intro a ha
      by_cases hne : d = d2
      · subst hne
        simp [step, DeleteDevice, hdev, State.activation, lookup_drop_same] at ha
      · apply hJ
        simpa [step, DeleteDevice, hdev, State.activation, lookup_drop_other _ _ _ hne] using ha
  | validateAndConsume d2 j n => exact same (validate_sessions s d2 j n)
  | flush d2 => exact same rfl
  | createKeys d2 k => apply same; simp only [step, CreateKeys]; split <;> rfl
  | updateKeys d2 k => apply same; simp only [step, UpdateKeys]; split <;> rfl
  | deleteKeys d2 => apply same; simp only [step, DeleteKeys]; split <;> rfl
  | enqueue d2 item => apply same; simp only [step, Enqueue]; split <;> rfl
  | flushQueue d2 => exact same rfl
  | activate d2 p =>
    rcases activate_cases env s d2 p with ⟨_, h⟩ | ⟨hok, a2, h⟩
    · apply same; simp only [step]; rw [h]
    · have hne : d ≠ d2 := by
        intro heq
        simp [keepsSession, hok, heq] at hk
      have hs : (step env s (Op.activate d2 p)).sessions = putSession s.sessions d2 a2 := by
        rcases h with h | ⟨j, n, h⟩
        · simp only [step]; rw [h]; rfl
        · simp only [step]; rw [h]; simp only [install]; rw [validate_sessions]
      intro a ha
      apply hJ
      simpa [State.activation, hs, lookup_put_other _ _ _ _ hne] using ha
  | deactivate d2 =>
    intro a ha
    by_cases hne : d = d2
    · subst hne
      simp [step, Deactivate, State.activation, lookup_drop_same] at ha
    · apply hJ
      simpa [step, Deactivate, State.activation, lookup_drop_other _ _ _ hne] using ha
  | nextForTransmission d2 =>
    rcases next_sessions s d2 with ⟨_, h⟩ | ⟨act, it, hact, _, h⟩
    · exact same h
    · intro a ha
      by_cases hne : d = d2
      · subst hne
        simp only [step, State.activation, h, lookup_put_same, Option.some.injEq] at ha
        subst ha
        have := hJ act hact
        simp only
        omega
      · apply hJ
        simpa [step, State.activation, h, lookup_put_other _ _ _ _ hne] using ha
  | acknowledge d2 c2 =>
    rcases ack_sessions s d2 c2 with h | ⟨act, hact, h⟩
    · exact same h
    · intro a ha
      by_cases hne : d = d2
      · subst hne
        simp only [step, State.activation, h, lookup_put_same, Option.some.injEq] at ha
        subst ha
        have := hJ act hact
        simp only
        omega
      · apply hJ
        simpa [step, State.activation, h, lookup_put_other _ _ _ _ hne] using ha

theorem run_floor (env : Env) (s : State) (ops : List Op) (d : DevEUI) (c : Nat)
    (hJ : ∀ a, s.activation d = some a → c ≤ a.lastFCntDown)
    (hk : sessionKept env d s ops = true) :
    ∀ a, (run env s ops).activation d = some a → c ≤ a.lastFCntDown := by
  induction ops generalizing s with
  | nil => exact hJ
  | cons op ops ih =>
    simp only [sessionKept, Bool.and_eq_true] at hk
    simp only [run, List.foldl_cons] at ih ⊢
    exact ih _ (step_floor env s op d c hJ hk.1) hk.2

/-! ## The claims about the core -/

/-- An Activate that fails leaves the state as it was. -/
theorem activate_failure_rolls_back (env : Env) (s : State) (d : DevEUI) (p : ActivateParams)
    (h : (Activate env s d p).1 ≠ none) : (Activate env s d p).2 = s := by
  rcases activate_cases env s d p with ⟨_, h1⟩ | ⟨h1, _⟩
  · exact h1
  · exact absurd h1 h

/-- An OTAA Activate whose join nonce the nonce check rejects does not succeed. -/
theorem activate_fails_on_rejected_nonce (env : Env) (s : State) (d : DevEUI) (o : OtaaParams)
    (h : (ValidateAndConsume s d o.joinEUI o.joinNonce).1 = some ErrorKind.ReplayDetected) :
    (Activate env s d (ActivateParams.otaa o)).1 ≠ none := by
  unfold Activate
  split
  · simp
  · split
    · simp
    · simp only []
      split
      · simp
      · split
        · simp
        · rename_i hvc
          rw [h] at hvc
          cases hvc

/-- Claim C5 as stated fails in three ways, each with no Flush in between.  On a device whose
skip-validation flag is set, a nonce that was accepted is accepted again.  A nonce that the
nonce check accepted inside an Activate which then failed (the device has no root keys:
InvalidKeyMaterial) is rolled back with it and accepted again.  And a nonce accepted for a
device that is then deleted, which destroys its nonce history, and created again, is accepted
again. -/
theorem consumed_nonce_is_accepted_again :
    ((ValidateAndConsume (State.oneDevice 1 true) 1 2 3).1 = none ∧
      (ValidateAndConsume (ValidateAndConsume (State.oneDevice 1 true) 1 2 3).2 1 2 3).1 = none)
    ∧ ((ValidateAndConsume (State.oneDevice 1 false) 1 2 3).1 = none ∧
      (Activate Env.sample (State.oneDevice 1 false) 1 ActivateParams.otaaSample).1 =
        some ErrorKind.InvalidKeyMaterial ∧
      (ValidateAndConsume
        (Activate Env.sample (State.oneDevice 1 false) 1 ActivateParams.otaaSample).2 1 2 3).1 =
          none)
    ∧ ((ValidateAndConsume (State.oneDevice 1 false) 1 2 3).1 = none ∧
      (ValidateAndConsume (run Env.sample (ValidateAndConsume (State.oneDevice 1 false) 1 2 3).2
        [Op.deleteDevice 1, Op.createDevice 1 Device.sample]) 1 2 3).1 = none) := by
  decide

/-- Claim C5, amended.  A join nonce whose acceptance was kept, by a call of
ValidateAndConsume or inside an OTAA Activate that succeeded, is rejected with ReplayDetected
on an attempt with the same (DevEUI, JoinEUI, joinNonce) after any sequence of operations of
the core and the registry that holds no Flush for that device and no delete of that device,
provided the skip-validation flag of the device is not set at the attempt; an OTAA Activate
with a nonce that is so rejected does not succeed.  When the skip-validation flag is set at
the attempt, the nonce is accepted whether it was seen before or not.  An Activate that fails
leaves the state as it was, so a nonce accepted inside it is not recorded. -/
theorem consumed_nonce_is_rejected_until_flush (env : Env) (d : DevEUI) (j : JoinEUI)
    (n : Nat) :
    (∀ (s : State) (ops : List Op), (ValidateAndConsume s d j n).1 = none →
        Op.flush d ∉ ops → Op.deleteDevice d ∉ ops →
        skipValidation (run env (ValidateAndConsume s d j n).2 ops) d = false →
        (ValidateAndConsume (run env (ValidateAndConsume s d j n).2 ops) d j n).1 =
          some ErrorKind.ReplayDetected)
    ∧ (∀ (s : State) (o : OtaaParams) (ops : List Op), o.joinEUI = j → o.joinNonce = n →
        (Activate env s d (ActivateParams.otaa o)).1 = none →
        Op.flush d ∉ ops → Op.deleteDevice d ∉ ops →
        skipValidation (run env (Activate env s d (ActivateParams.otaa o)).2 ops) d = false →
        (ValidateAndConsume (run env (Activate env s d (ActivateParams.otaa o)).2 ops) d j n).1 =
          some ErrorKind.ReplayDetected)
    ∧ (∀ (s : State) (o : OtaaParams), o.joinEUI = j → o.joinNonce = n →
        (ValidateAndConsume s d j n).1 = some ErrorKind.ReplayDetected →
        (Activate env s d (ActivateParams.otaa o)).1 ≠ none)
    ∧ (∀ s : State, skipValidation s d = true → (ValidateAndConsume s d j n).1 = none)
    ∧ (∀ (s : State) (p : ActivateParams), (Activate env s d p).1 ≠ none →
        (Activate env s d p).2 = s) := by
  have key : ∀ (t : State) (ops : List Op), n ∈ t.nonces d j → Op.flush d ∉ ops →
      Op.deleteDevice d ∉ ops → skipValidation (run env t ops) d = false →
      (ValidateAndConsume (run env t ops) d j n).1 = some ErrorKind.ReplayDetected := by
    intro t ops hn hflush hdel hskip
    have hmem := run_nonce_mem env t ops d j n hn hflush hdel
    unfold ValidateAndConsume
    rw [if_pos ⟨hmem, hskip⟩]
  refine ⟨?_, ?_, ?_, ?_, ?_⟩
  · intro s ops hacc hflush hdel hskip
    exact key _ ops (validate_records s d j n hacc) hflush hdel hskip
  · intro s o ops hj hn hacc hflush hdel hskip
    subst hj
    subst hn
    exact key _ ops (activate_otaa_records env s d o hacc) hflush hdel hskip
  · intro s o hj hn hrej
    subst hj
    subst hn
    exact activate_fails_on_rejected_nonce env s d o hrej
  · intro s hskip
    unfold ValidateAndConsume
    rw [if_neg (by simp [hskip])]
  · intro s p h
    exact activate_failure_rolls_back env s d p h

/-- The amended claim C5 at a concrete input: nonce 3 of device 1 is accepted, then another
nonce, a Flush for device 2, an update of device 1 that leaves the flag unset, a delete of
device 2, an activation of device 1 and the passing of time follow, and nonce 3 is
rejected. -/
theorem consumed_nonce_is_rejected_witness :
    (ValidateAndConsume (State.oneDevice 1 false) 1 2 3).1 = none ∧
    (ValidateAndConsume (run Env.sample (ValidateAndConsume (State.oneDevice 1 false) 1 2 3).2
      [Op.validateAndConsume 1 2 4, Op.flush 2, Op.updateDevice 1 Device.sample,
        Op.deleteDevice 2, Op.activate 1 ActivateParams.sample, Op.tick 5]) 1 2 3).1 =
      some ErrorKind.ReplayDetected :=
  ⟨by decide,
    (consumed_nonce_is_rejected_until_flush Env.sample 1 2 3).1 (State.oneDevice 1 false)
      [Op.validateAndConsume 1 2 4, Op.flush 2, Op.updateDevice 1 Device.sample,
        Op.deleteDevice 2, Op.activate 1 ActivateParams.sample, Op.tick 5]
      (by decide) (by decide) (by decide) (by decide)⟩

/-- Claim C6.  For every device, state and activation parameters, after Activate followed
immediately by Deactivate, GetActivation returns NotActivated. -/
theorem activate_then_deactivate_is_not_activated (env : Env) (s : State) (d : DevEUI)
    (p : ActivateParams) :
    GetActivation (Deactivate (Activate env s d p).2 d).2 d =
      Except.error ErrorKind.NotActivated := by
  simp [GetActivation, Deactivate, State.activation, lookup_drop_same]

/-- Claim C7.  Deactivate never returns an error; on a device without a session it leaves the
state as it was; and Deactivate applied twice gives the same state and the same successful
result as Deactivate applied once, the device being not activated afterwards. -/
theorem deactivate_is_idempotent (s : State) (d : DevEUI) :
    (Deactivate s d).1 = none
    ∧ (GetActivation s d = Except.error ErrorKind.NotActivated → (Deactivate s d).2 = s)
    ∧ Deactivate (Deactivate s d).2 d = (none, (Deactivate s d).2)
    ∧ (Deactivate (Deactivate s d).2 d).1 = (Deactivate s d).1
    ∧ GetActivation (Deactivate s d).2 d = Except.error ErrorKind.NotActivated := by
  have h1 := lookup_drop_same s.sessions d
  refine ⟨rfl, ?_, ?_, rfl, ?_⟩
  · intro h
    have h2 : lookupSession s.sessions d = none := by
      simp only [GetActivation, State.activation] at h
      cases hf : lookupSession s.sessions d with
      | none => rfl
      | some e => simp [hf] at h
    simp [Deactivate, drop_of_none _ _ h2]
  · simp [Deactivate, drop_of_none _ _ h1]
  · simp [GetActivation, Deactivate, State.activation, h1]

/-- Claim C8 as stated fails: an item that has expired when GetQueue is called is not
returned, whether it had expired already when it was enqueued (time 10, expiry 5) or expired
between the two calls (enqueued at time 0, GetQueue at time 10).  Enqueue succeeds in both
cases. -/
theorem expired_item_is_not_returned :
    ((Enqueue (advance (State.oneDevice 1 false) 10) 1 QueueItemInput.sample).1 = Except.ok 0
      ∧ GetQueue (Enqueue (advance (State.oneDevice 1 false) 10) 1 QueueItemInput.sample).2 1
          = [])
    ∧ ((Enqueue (State.oneDevice 1 false) 1 QueueItemInput.sample).1 = Except.ok 0
      ∧ GetQueue (advance (Enqueue (State.oneDevice 1 false) 1 QueueItemInput.sample).2 10) 1
          = []) := by
  refine ⟨⟨rfl, ?_⟩, ⟨rfl, ?_⟩⟩ <;> decide

/-- Claim C8, amended.  For every device of the registry, Enqueue succeeds, and a GetQueue
that follows it, at once or after some time, returns the enqueued item at the tail of the
queue provided the item has not expired by then; after any sequence of Enqueue calls GetQueue
returns what it returned before followed by the new items that have not expired, in
insertion order; and delivery takes the items from the front of that sequence
(NextForTransmission hands out the first item GetQueue returns). -/
theorem enqueue_then_getQueue_is_fifo (s : State) (d : DevEUI) (dev : Device)
    (hdev : s.devices d = some dev) :
    (∀ item, (Enqueue s d item).1 = Except.ok (s.queue d).length)
    ∧ (∀ item dt, expired (s.now + dt) (stored (s.nextSeq d) item) = false →
        GetQueue (advance (Enqueue s d item).2 dt) d =
          GetQueue (advance s dt) d ++ [stored (s.nextSeq d) item])
    ∧ (∀ items dt, GetQueue (advance (enqueueAll s d items) dt) d =
        GetQueue (advance s dt) d ++
          (storedFrom (s.nextSeq d) items).filter (fun it => !expired (s.now + dt) it))
    ∧ (∀ items, (storedFrom (s.nextSeq d) items).map
        (fun it => ({ payload := it.payload, confirmed := it.confirmed, expiry := it.expiry } :
          QueueItemInput)) = items)
    ∧ (∀ act, s.activation d = some act →
        (NextForTransmission s d).1 = (GetQueue s d).head?.map
          (fun it => { it with fCntDown := some (act.lastFCntDown + 1), inFlight := true })) := by
  refine ⟨fun item => (enqueue_queue s d dev item hdev).1, ?_, ?_, fun items =>
    storedFrom_inputs _ items, ?_⟩
  · intro item dt hexp
    obtain ⟨_, hq, _, hnow, _⟩ := enqueue_queue s d dev item hdev
    simp [GetQueue, advance, hq, hnow, List.filter_append, hexp]
  · intro items dt
    obtain ⟨hq, hnow⟩ := enqueueAll_queue s d dev items hdev
    simp [GetQueue, advance, hq, hnow, List.filter_append]
  · intro act hact
    cases hq : GetQueue s d with
    | nil => simp [NextForTransmission, hact, hq]
    | cons it rest => simp [NextForTransmission, hact, hq]

/-- The amended claim C8 at a concrete input: on device 1 with two items queued, an item
enqueued at time 0 with expiry 5 is the tail of what GetQueue returns at time 3. -/
theorem enqueue_then_getQueue_witness :
    State.sample.devices 1 = some Device.sample ∧
    expired (State.sample.now + 3) (stored (State.sample.nextSeq 1) QueueItemInput.sample) = false ∧
    GetQueue (advance (Enqueue State.sample 1 QueueItemInput.sample).2 3) 1 =
      GetQueue (advance State.sample 3) 1 ++ [stored 2 QueueItemInput.sample] :=
  ⟨by decide, by decide,
    (enqueue_then_getQueue_is_fifo State.sample 1 Device.sample (by decide)).2.1
      QueueItemInput.sample 3 (by decide)⟩

/-- Claim C9.  For every device, whatever the number of pending items, FlushQueue succeeds and
leaves GetQueue returning the empty sequence, at once and at any later time; a subsequent
Enqueue on a device of the registry starts a fresh queue that holds only the newly enqueued
item, at position 0, and GetQueue returns that item alone for as long as it has not
expired. -/
theorem flushQueue_then_enqueue_starts_afresh (s : State) (d : DevEUI) :
    (FlushQueue s d).1 = none
    ∧ GetQueue (FlushQueue s d).2 d = []
    ∧ (∀ dt, GetQueue (advance (FlushQueue s d).2 dt) d = [])
    ∧ (∀ dev item, s.devices d = some dev →
        (Enqueue (FlushQueue s d).2 d item).1 = Except.ok 0
        ∧ (Enqueue (FlushQueue s d).2 d item).2.queue d = [stored (s.nextSeq d) item]
        ∧ ∀ dt, GetQueue (advance (Enqueue (FlushQueue s d).2 d item).2 dt) d =
            if expired (s.now + dt) (stored (s.nextSeq d) item) then []
            else [stored (s.nextSeq d) item]) := by
  refine ⟨rfl, ?_, ?_, ?_⟩
  · simp [GetQueue, FlushQueue, upd]
  · intro dt
    simp [GetQueue, FlushQueue, upd, advance]
  · intro dev item hdev
    have hdev2 : (FlushQueue s d).2.devices d = some dev := hdev
    obtain ⟨h1, hq, _, hnow, _⟩ := enqueue_queue (FlushQueue s d).2 d dev item hdev2
    refine ⟨?_, ?_, ?_⟩
    · rw [h1]; simp [FlushQueue, upd]
    · rw [hq]; simp [FlushQueue, upd]
    · intro dt
      simp only [GetQueue, advance, hq, hnow]
      simp only [FlushQueue, upd, if_true, List.nil_append, List.filter_cons, List.filter_nil]
      cases expired (s.now + dt) (stored (s.nextSeq d) item) <;> simp

/-- The claim C9 at a concrete input: device 1 has two pending items; after FlushQueue,
GetQueue returns nothing, and after a further Enqueue it returns the new item alone. -/
theorem flushQueue_then_enqueue_witness :
    (GetQueue State.sample 1).length = 2 ∧
    GetQueue (FlushQueue State.sample 1).2 1 = [] ∧
    GetQueue (advance (Enqueue (FlushQueue State.sample 1).2 1 QueueItemInput.sample).2 0) 1 =
      [stored 2 QueueItemInput.sample] :=
  ⟨by decide, (flushQueue_then_enqueue_starts_afresh State.sample 1).2.1,
    ((flushQueue_then_enqueue_starts_afresh State.sample 1).2.2.2 Device.sample
      QueueItemInput.sample (by decide)).2.2 0⟩

/-- Claim C10.  Within one session, that is across any sequence of operations of the core
none of which is an Activate that installs a fresh session for the device, two transmissions
handed out by NextForTransmission carry frame counters `c1 < c2`, and each counter is greater
than the last transmitted or acknowledged counter of the session at the time of its call. -/
theorem frame_counters_strictly_increase (env : Env) (s : State) (d : DevEUI) (ops : List Op)
    (it1 it2 : DeviceQueueItem)
    (h1 : (NextForTransmission s d).1 = some it1)
    (hk : sessionKept env d (NextForTransmission s d).2 ops = true)
    (h2 : (NextForTransmission (run env (NextForTransmission s d).2 ops) d).1 = some it2) :
    ∃ act1 act2 c1 c2,
      s.activation d = some act1 ∧
      (run env (NextForTransmission s d).2 ops).activation d = some act2 ∧
      it1.fCntDown = some c1 ∧ it2.fCntDown = some c2 ∧
      act1.lastFCntDown < c1 ∧ act2.lastFCntDown < c2 ∧ c1 < c2 := by
  rcases next_sessions s d with ⟨hn, _⟩ | ⟨act1, i1, hact1, hr1, hs1⟩
  · rw [hn] at h1; cases h1
  rcases next_sessions (run env (NextForTransmission s d).2 ops) d with
    ⟨hn, _⟩ | ⟨act2, i2, hact2, hr2, _⟩
  · rw [hn] at h2; cases h2
  rw [hr1] at h1
  rw [hr2] at h2
  cases h1
  cases h2
  have hfloor := run_floor env (NextForTransmission s d).2 ops d (act1.lastFCntDown + 1)
    (by
      intro a ha
      simp only [State.activation, hs1, lookup_put_same, Option.some.injEq] at ha
      subst ha
      exact Nat.le_refl _) hk act2 hact2
  exact ⟨act1, act2, act1.lastFCntDown + 1, act2.lastFCntDown + 1, hact1, hact2, rfl, rfl,
    Nat.lt_succ_self _, Nat.lt_succ_self _, Nat.lt_succ_of_le hfloor⟩

/-- The claim C10 at a concrete input: on device 1 the unconfirmed item goes out with counter
1; the confirmed item then goes out with counter 2 and is acknowledged, a failing Activate and
an Enqueue follow, and the next transmission carries a counter greater than 1. -/
theorem frame_counters_witness :
    (NextForTransmission State.sample 1).1 =
      some { stored 0 QueueItemInput.sample with fCntDown := some 1, inFlight := true } ∧
    (NextForTransmission (run Env.sample (NextForTransmission State.sample 1).2
      [Op.nextForTransmission 1, Op.acknowledge 1 2,
        Op.activate 1 (ActivateParams.otaa
          { joinEUI := 2, devNonce := 1, joinNonce := 3, macVersion := none, fCntUp := none,
            fCntDown := none }),
        Op.enqueue 1 QueueItemInput.sample]) 1).1 =
      some { stored 2 QueueItemInput.sample with fCntDown := some 3, inFlight := true } ∧
    ∃ act1 act2 c1 c2,
      State.sample.activation 1 = some act1 ∧
      (run Env.sample (NextForTransmission State.sample 1).2
        [Op.nextForTransmission 1, Op.acknowledge 1 2,
          Op.activate 1 (ActivateParams.otaa
            { joinEUI := 2, devNonce := 1, joinNonce := 3, macVersion := none, fCntUp := none,
              fCntDown := none }),
          Op.enqueue 1 QueueItemInput.sample]).activation 1 = some act2 ∧
      ({ stored 0 QueueItemInput.sample with fCntDown := some 1, inFlight := true } :
        DeviceQueueItem).fCntDown = some c1 ∧
      ({ stored 2 QueueItemInput.sample with fCntDown := some 3, inFlight := true } :
        DeviceQueueItem).fCntDown = some c2 ∧
      act1.lastFCntDown < c1 ∧ act2.lastFCntDown < c2 ∧ c1 < c2 :=
  ⟨by decide, by decide,
    frame_counters_strictly_increase Env.sample State.sample 1
      [Op.nextForTransmission 1, Op.acknowledge 1 2,
        Op.activate 1 (ActivateParams.otaa
          { joinEUI := 2, devNonce := 1, joinNonce := 3, macVersion := none, fCntUp := none,
            fCntDown := none }),
        Op.enqueue 1 QueueItemInput.sample]
      { stored 0 QueueItemInput.sample with fCntDown := some 1, inFlight := true }
      { stored 2 QueueItemInput.sample with fCntDown := some 3, inFlight := true }
      (by decide) (by decide) (by decide)⟩

end Core
